import Mathlib

set_option maxRecDepth 100000
set_option maxHeartbeats 2000000

/-!
Verification of the query segmentation, category routing and score-fusion
engine of `relevency/scripts/global_relevancy.py`.

Modelling conventions, used throughout:

* Python strings are `List Char` (one entry per Unicode code point, matching
  Python's `len`/indexing semantics); `Str` abbreviates this.
* Python floats are rationals (`ℚ`): IEEE rounding is idealized away, as the
  decision logic only adds, multiplies, divides and compares.
* External collaborators of the engine are parameters of an explicit context
  (`Ctx`): the Unicode NFKD normalizer (the stdlib call
  `unicodedata.normalize("NFKD", s)`), the float exponential `math.exp`
  (used only inside `1/(1+exp(-raw))`), the sentence-embedding encoder
  `MODEL.encode`, and the two optional specialized scorers
  (`analyser_relevancy`, `endo_relevancy`).  Fallible collaborators return
  `Except Str ·`; a Python exception raised by a collaborator is the
  `.error` case.
* Character classes of the regular expressions in the source (`\s`, `\d`,
  `\w`, `[a-z]` under `re.IGNORECASE`, casing) are modelled on the code-point
  sets written below; for the non-ASCII corners of Python's Unicode tables
  only the explicitly listed code points are covered.
-/

abbrev Str := List Char

/-- Python's `str.strip()` / regex `\s` whitespace class: the code points with
the Unicode whitespace property (U+0009-U+000D, U+001C-U+001F, space, U+0085,
U+00A0, U+1680, U+2000-U+200A, U+2028, U+2029, U+202F, U+205F, U+3000). -/
def pyWS (c : Char) : Bool :=
  c == ' ' || (0x9 ≤ c.toNat && c.toNat ≤ 0xd) ||
  (0x1c ≤ c.toNat && c.toNat ≤ 0x1f) || c.toNat == 0x85 || c.toNat == 0xa0 ||
  c.toNat == 0x1680 || (0x2000 ≤ c.toNat && c.toNat ≤ 0x200a) ||
  c.toNat == 0x2028 || c.toNat == 0x2029 || c.toNat == 0x202f ||
  c.toNat == 0x205f || c.toNat == 0x3000

/-- The character class of `re.sub(r"[\u200B-\u200F\u202A-\u202E\u00A0]", " ", s)`
in `normalize_text`: zero-width and bidi-control format characters and NBSP. -/
def zwChar (c : Char) : Bool :=
  (0x200B ≤ c.toNat && c.toNat ≤ 0x200F) ||
  (0x202A ≤ c.toNat && c.toNat ≤ 0x202E) ||
  c.toNat == 0xA0

/-- Python `str.strip()`: remove whitespace from both ends. -/
def pyStrip (s : Str) : Str := (s.dropWhile pyWS).rdropWhile pyWS

/-- ASCII fragment of Python `str.lower()` (the engine only ever feeds the
lowercased text to ASCII-only matching, so non-ASCII case mappings are
irrelevant to every property below). -/
def lowerChar (c : Char) : Char :=
  if 'A' ≤ c && c ≤ 'Z' then Char.ofNat (c.toNat + 32) else c

/-- Python `str.lower()` applied characterwise. -/
def lowerStr (s : Str) : Str := s.map lowerChar

/-- The three character replacements of `normalize_text`: the `re.sub` over
`zwChar` and the two `str.replace` calls collapsing `\n` and `\r` to
spaces. -/
def replChars (s : Str) : Str :=
  ((s.map fun c => if zwChar c then ' ' else c).map
    fun c => if c == '\n' then ' ' else c).map
    fun c => if c == '\r' then ' ' else c

/-- `normalize_text` (global_relevancy.py:712-719): NFKD-decompose, replace
zero-width/bidi/format characters and NBSP by spaces, collapse `\n` and `\r`
to spaces, strip.  The NFKD step is the stdlib collaborator `nfkd`. -/
def normalize_text (nfkd : Str → Str) (s : Str) : Str :=
  pyStrip (replChars (nfkd s))

/-- The character class `[a-z0-9]` of `norm_token_list`. -/
def tokChar (c : Char) : Bool :=
  ('a' ≤ c && c ≤ 'z') || ('0' ≤ c && c ≤ '9')

/-- Scanner for maximal runs of `[a-z0-9]` characters; `cur` is the current
run, reversed.  Structural in the string so that the kernel can evaluate it. -/
def tokenRunsAcc (cur : Str) : Str → List Str
  | [] => if cur = [] then [] else [cur.reverse]
  | c :: rest =>
    if tokChar c then tokenRunsAcc (c :: cur) rest
    else if cur = [] then tokenRunsAcc [] rest
    else cur.reverse :: tokenRunsAcc [] rest

/-- Maximal runs of `[a-z0-9]` characters: `re.findall(r"[a-z0-9]+", s)`. -/
def tokenRuns (s : Str) : List Str := tokenRunsAcc [] s

/-- `norm_token_list` (global_relevancy.py:722-725): lowercase the normalized
text, extract alphanumeric runs, keep tokens of length > 2. -/
def norm_token_list (nfkd : Str → Str) (s : Str) : List Str :=
  (tokenRuns (lowerStr (normalize_text nfkd s))).filter (fun t => decide (2 < t.length))

/-- `token_set` (global_relevancy.py:728-729); a Python `set` is modelled as a
duplicate-free list, which is all the cardinality computations below need. -/
def token_set (nfkd : Str → Str) (s : Str) : List Str :=
  (norm_token_list nfkd s).dedup

/-- Cardinality of the intersection of two Python sets modelled as
duplicate-free lists. -/
def interCount (a b : List Str) : Nat :=
  (a.filter (fun t => decide (t ∈ b))).length

/-- `token_overlap` (global_relevancy.py:732-737). -/
def token_overlap (nfkd : Str → Str) (q t : Str) : ℚ :=
  let qs := token_set nfkd q
  let ts := token_set nfkd t
  if qs.isEmpty then 0 else (interCount qs ts : ℚ) / (qs.length : ℚ)

/-- The canonical match shape produced by `sanitize_match` and by the generic
scoring loop of `predict_single` (all eleven keys of the Python dict). -/
structure CandMatch where
  index : Option Int
  product_code : Str
  title : Str
  type : Str
  category : Str
  specification : Str
  emb_score : ℚ
  token_score : ℚ
  title_overlap : ℚ
  raw_score : ℚ
  relevancy : ℚ
deriving DecidableEq

/-- `is_relevant_by_density` (global_relevancy.py:947-966). -/
def is_relevant_by_density (top_matches : List CandMatch) : Bool :=
  match top_matches with
  | [] => false
  | m :: ms =>
    if (0.80 : ℚ) ≤ m.relevancy then true
    else if 2 ≤ ((m :: ms).filter (fun x => decide ((0.60 : ℚ) ≤ x.relevancy))).length then true
    else false

/-- A match whose only nonzero data is its relevancy, used to express the
spec's concrete density-rule examples. -/
def relOnlyMatch (r : ℚ) : CandMatch :=
  ⟨none, [], [], [], [], [], 0, 0, 0, 0, r⟩

/-- The loose, optional-field match dictionaries returned by the specialized
scorers, with one `Option` field per key that `sanitize_match` probes;
`none` is a missing key (or Python `None`). -/
structure RawMatch where
  index : Option Int
  product_code : Option Str
  title : Option Str
  type : Option Str
  category : Option Str
  specification : Option Str
  spec : Option Str
  specification_text : Option Str
  emb_score : Option ℚ
  emb : Option ℚ
  token_score : Option ℚ
  token : Option ℚ
  title_overlap : Option ℚ
  title_tok : Option ℚ
  raw_score : Option ℚ
  relevancy : Option ℚ
  relevancy_score : Option ℚ
  relevancy_local : Option ℚ
deriving DecidableEq

/-- The empty Python dict `{}` (no probed key present). -/
def RawMatch.empty : RawMatch :=
  ⟨none, none, none, none, none, none, none, none, none, none, none, none,
    none, none, none, none, none, none⟩

/-- Python `a or b` for an optional float `a`: a missing or zero (falsy)
value falls through to `b`. -/
def pyOrQ (a : Option ℚ) (b : ℚ) : ℚ :=
  match a with
  | none => b
  | some x => if x = 0 then b else x

/-- Python `a or b` for an optional string `a`: a missing or empty (falsy)
value falls through to `b`. -/
def pyOrS (a : Option Str) (b : Str) : Str :=
  match a with
  | none => b
  | some x => if x = [] then b else x

/-- `sanitize_match` (global_relevancy.py:799-839).  A falsy (empty) dict
takes the first branch; in the model every dict carrying none of the probed
keys is identified with `RawMatch.empty`, and both branches produce the same
record for it. -/
def sanitize_match (raw : RawMatch) : CandMatch :=
  if raw = RawMatch.empty then
    ⟨none, [], [], [], [], [], 0, 0, 0, 0, 0⟩
  else
    { index := raw.index
      product_code := pyOrS raw.product_code []
      title := pyOrS raw.title []
      type := pyOrS raw.type []
      category := pyOrS raw.category []
      specification := pyOrS raw.specification (pyOrS raw.spec (pyOrS raw.specification_text []))
      emb_score := pyOrQ raw.emb_score (pyOrQ raw.emb 0)
      token_score := pyOrQ raw.token_score (pyOrQ raw.token 0)
      title_overlap := pyOrQ raw.title_overlap (pyOrQ raw.title_tok 0)
      raw_score := pyOrQ raw.raw_score 0
      relevancy := pyOrQ raw.relevancy (pyOrQ raw.relevancy_score (pyOrQ raw.relevancy_local 0)) }

/-- Insert step of a stable descending insertion sort with strict Bool
comparator `lt`: the new element goes in front of the first entry it is not
less than. -/
def insertDesc (lt : α → α → Bool) (x : α) : List α → List α
  | [] => [x]
  | h :: t => if lt x h then h :: insertDesc lt x t else x :: h :: t

/-- Stable descending sort.  Python's `list.sort(key=k, reverse=True)` is a
stable descending sort, and any two stable sorts under the same total key
compute the same list, so this models it exactly. -/
def sortDesc (lt : α → α → Bool) : List α → List α
  | [] => []
  | x :: t => insertDesc lt x (sortDesc lt t)

/-- The regex word class `\w` (ASCII fragment), defining `\b` boundaries. -/
def wordChar (c : Char) : Bool :=
  ('a' ≤ c && c ≤ 'z') || ('A' ≤ c && c ≤ 'Z') || ('0' ≤ c && c ≤ '9') || c == '_'

/-- Whether position `i` of `s` holds a word character. -/
def wordAt (s : Str) (i : Nat) : Bool :=
  match s.get? i with
  | some c => wordChar c
  | none => false

/-- A `\b` word boundary between positions `i-1` and `i` of `s`. -/
def boundaryAt (s : Str) (i : Nat) : Bool :=
  (if i = 0 then false else wordAt s (i - 1)) != wordAt s i

/-- `re.search(r"\b" + re.escape(pat) + r"\b", s)` as a Bool: some occurrence
of the literal `pat` in `s` delimited by word boundaries on both sides. -/
def wholeWordIn (pat s : Str) : Bool :=
  (List.range (s.length + 1)).any fun i =>
    decide ((s.drop i).take pat.length = pat) &&
    decide (i + pat.length ≤ s.length) &&
    boundaryAt s i && boundaryAt s (i + pat.length)

/-- One record of the loaded catalog (`INDEX`), with the fields the engine
reads. -/
structure CatalogItem where
  index : Option Int
  product_code : Str
  title : Str
  type : Str
  category : Str
  specification : Str
  merged_text : Str
deriving DecidableEq

/-- Python's `<` on the `(len(kw), kw, cat)` tuples collected by
`detect_category_from_query`: lexicographic on the triple, strings compared
code point by code point. -/
def hitKey (h : Nat × Str × Str) : Nat ×ₗ (Str ×ₗ Str) :=
  toLex (h.1, toLex (h.2.1, h.2.2))

/-- Bool form of the tuple order, used as the sort comparator. -/
def hitLt (a b : Nat × Str × Str) : Bool :=
  decide (hitKey a < hitKey b)

/-- The `CATEGORY_KEYWORDS` table of `global_relevancy.py`, transcribed entry by
entry in source order.  The Python object is a `dict` literal, so duplicated
keys collapse (last value wins); every duplicated key in the source maps to
the same category, and `detect_category_from_query` only filters and sorts the
table, so iterating the full literal list is observationally identical to
iterating the deduplicated dict. -/
def categoryKeywordPairs : List (String × String) := [
  ("pipette", "Pipettes"),
  ("pipettes", "Pipettes"),
  ("fixed volume", "Pipettes"),
  ("variable", "Pipettes"),
  ("dengue", "Elisa"),
  ("ns1", "Elisa"),
  ("hiv", "Elisa"),
  ("hbsag", "Elisa"),
  ("crp", "Turbidimetry"),
  ("rf", "Nephelometry"),
  ("aso", "Nephelometry"),
  ("control", "Controls"),
  ("control kit", "Controls"),
  ("system pack", "System Packs"),
  ("albumin", "System Packs"),
  ("anti a", "BloodGroup"),
  ("anti b", "BloodGroup"),
  ("anti d", "BloodGroup"),
  ("anti ab", "BloodGroup"),
  ("blood grouping", "BloodGroup"),
  ("reagent", "Reagents"),
  ("reagents", "Reagents"),
  ("analyser", "Analyser"),
  ("analyzer", "Analyser"),
  ("hematology", "Analyser"),
  ("hb", "Analyser"),
  ("meriscreen", "Meriscreen"),
  ("rapid", "Rapids"),
  ("elisa", "Elisa"),
  ("nephelometry", "Nephelometry"),
  ("turbidimetry", "Turbidimetry"),
  ("5 part", "Analyser"),
  ("3 part", "Analyser"),
  ("cbc", "Analyser"),
  ("celquant", "Analyser"),
  ("autoloader", "Analyser"),
  ("5 part", "Analyser"),
  ("3 part", "Analyser"),
  ("6 part", "Analyser"),
  ("hematology", "Analyser"),
  ("cell counter", "Analyser"),
  ("automated analy", "Analyser"),
  ("cbc", "Analyser"),
  ("celquant", "Analyser"),
  ("autoloader", "Analyser"),
  ("biochemistry", "Analyser"),
  ("bio chemistry", "Analyser"),
  ("chemistry analy", "Analyser"),
  ("fully automatic biochemistry analyzer", "Analyser"),
  ("semi automatic bio chemistry analyser", "Analyser"),
  ("veterinary biochemistry analyzer", "Analyser"),
  ("elisa reader", "Analyser"),
  ("elisa washer", "Analyser"),
  ("elisa plate washer", "Analyser"),
  ("elisa test", "Analyser"),
  ("immunoassay analyzer", "Analyser"),
  ("coagulation", "Analyser"),
  ("coagulation analyzer", "Analyser"),
  ("semi automated coagulation analyser", "Analyser"),
  ("electrolyte", "Analyser"),
  ("electrolyte analy", "Analyser"),
  ("electrolyte analyzer", "Analyser"),
  ("pcr machine", "Analyser"),
  ("real time pcr", "Analyser"),
  ("rt-pcr", "Analyser"),
  ("rtpcr", "Analyser"),
  ("qpcr", "Analyser"),
  ("thermal cycler", "Analyser"),
  ("dna extraction system", "Analyser"),
  ("rna extraction", "Analyser"),
  ("dna extraction", "Analyser"),
  ("gel doc", "Analyser"),
  ("gel documentation system", "Analyser"),
  ("hplc analy", "Analyser"),
  ("hplc system", "Analyser"),
  ("liquid chromatograph", "Analyser"),
  ("immunoassay", "Analyser"),
  ("immunoassay analyzer reagents", "Analyser"),
  ("electrolyte analyzer reagents", "Analyser"),
  ("coagulation analyzer reagents", "Analyser"),
  ("biochemistry reagent kit", "Analyser"),
  ("poct", "Analyser"),
  ("point of care", "Analyser"),
  ("glucometer", "Analyser"),
  ("bonewax", "Endo"),
  ("bone wax", "Endo"),
  ("catgut", "Endo"),
  ("suture", "Endo"),
  ("sutures", "Endo"),
  ("endo", "Endo"),
  ("aspiron", "Endo"),
  ("Polyglactine", "Endo"),
  ("endo", "Endo"),
  ("endoscope", "Endo"),
  ("endoscopes", "Endo"),
  ("endoscopic", "Endo"),
  ("endoscopic equipment", "Endo"),
  ("endoscopic accessories", "Endo"),
  ("trocar", "Endo"),
  ("endocutter", "Endo"),
  ("endo cutter", "Endo"),
  ("reload linear cutter", "Endo"),
  ("circular stapler", "Endo"),
  ("hemorrhoid stapler", "Endo"),
  ("skin stapler", "Endo"),
  ("stapler", "Endo"),
  ("suture", "Endo"),
  ("suture item", "Endo"),
  ("ligation clip", "Endo"),
  ("fixation device", "Endo"),
  ("powered fixation", "Endo"),
  ("hernia", "Endo"),
  ("hernia mesh", "Endo"),
  ("herniamesh", "Endo"),
  ("anatomical mesh", "Endo"),
  ("haemostat", "Endo"),
  ("haemostatics", "Endo"),
  ("hemostat", "Endo"),
  ("gelatin sponge", "Endo"),
  ("oxidised cellulose", "Endo"),
  ("oxidised regenerated cellulose", "Endo"),
  ("bone wax", "Endo"),
  ("umbilical cotton tape", "Endo"),
  ("laparoscop", "Endo"),
  ("minimal invasive", "Endo"),
  ("ultrasonic surg", "Endo"),
  ("surgical system", "Endo"),
  ("diode laser", "Endo"),
  ("laser diode", "Endo"),
  ("laser fiber", "Endo"),
  ("fibre laser", "Endo"),
  ("fiber laser", "Endo"),
  ("laser ablation", "Endo"),
  ("robotics", "Endo"),
  ("robot machines", "Endo"),
  ("robot components", "Endo"),
  ("robotic assisted", "Endo"),
  ("robotic surg", "Endo"),
  ("surg robot", "Endo"),
  ("robot for surg", "Endo"),
  ("ras", "Endo"),
  ("joint replace", "Endo"),
  ("knee replace", "Endo"),
  ("tkr robot", "Endo"),
  ("endotracheal tubes", "Endo"),
  ("transducers", "Endo"),
  ("cartridges", "Endo"),
  ("disposable medical item", "Endo"),
  ("medical consumable", "Endo"),
  ("medical item", "Endo"),
  ("intra uterine", "Endo"),
  ("iud", "Endo"),
  ("iucd", "Endo"),
  ("hormonal intrauterine", "Endo"),
  ("anti contraceptive", "Endo"),
  ("contraceptive", "Endo"),
  ("skill lab", "Endo"),
  ("polyglactine", "Endo"),
  ("CHROMIC CATGUT", "Endo"),
  ("gt-bonewax", "Endo"),
  ("gt bonewax", "Endo"),
  ("gtbonewax", "Endo"),
  ("gt_bonewax", "Endo"),
  ("gt bone wax", "Endo"),
  ("gt-bone-wax", "Endo"),
  ("gt bone-wax", "Endo"),
  ("gt-bone wax", "Endo"),
  ("gt bonewax", "Endo"),
  ("gt chromic catgut", "Endo"),
  ("gt appl20844apgn202317 anyl203336appm611", "Endo"),
  ("gt appl20844apgn202317 anyl203336appm715", "Endo"),
  ("gt polyamide black", "Endo"),
  ("ane polyamide black", "Endo"),
  ("sp polyamide black", "Endo"),
  ("gt polyglecaprone undyed", "Endo"),
  ("ane polyglecaprone undyed", "Endo"),
  ("gt polydioxanone violet", "Endo"),
  ("sp polydioxanone violet", "Endo"),
  ("gt polyglycolic acid violet", "Endo"),
  ("gt polyglycolic acid violet", "Endo"),
  ("gt polyglactin 910 fast undyed", "Endo"),
  ("ane polyglactin 910 fast undyed", "Endo"),
  ("gt polyglactin 910 violet", "Endo"),
  ("ane polyglactin 910 violet", "Endo"),
  ("sp polyglactin 910 violet", "Endo"),
  ("gt polyglactin 910 violet", "Endo"),
  ("gt polyglactin 910 undyed", "Endo"),
  ("ane polyglactin 910 violet", "Endo"),
  ("sp polyglactin 910 violet", "Endo"),
  ("ane polyglactin 910 undyed", "Endo"),
  ("sp polyglactin 910 undyed", "Endo"),
  ("gt polyglactin 910 with triclosan violet", "Endo"),
  ("ane polyglactin 910 with triclosan violet", "Endo"),
  ("ane polyglactin 910 with triclosan undyed", "Endo"),
  ("gt polyglactin 910 t plus violet", "Endo"),
  ("gt polypropylene blue", "Endo"),
  ("ane polypropylene blue", "Endo"),
  ("sp polypropylene blue", "Endo"),
  ("sp polypropylene blue", "Endo"),
  ("gt polypropylene blue", "Endo"),
  ("ane polypropylene blue", "Endo"),
  ("polypropylene mesh", "Endo"),
  ("gt polypropylene mesh", "Endo"),
  ("gt polyester green", "Endo"),
  ("gt polyester gr", "Endo"),
  ("gt silk black", "Endo"),
  ("ane silk black", "Endo"),
  ("sp silk black", "Endo"),
  ("avr kit", "Endo"),
  ("topical skin adhesive glue", "Endo"),
  ("bowel structures", "Endo"),
  ("Silk Black", "Endo"),
  ("BONEWAX X 2 GM", "Endo"),
  ("CABG KIT FOR DR. BRIJ MOHAN SINGH", "Endo"),
  ("CABG KIT FOR DR. MAHESH KEDAR", "Endo"),
  ("CABG KIT-DR.VINAYAK KARMARKAR", "Endo"),
  ("CABG KIT FOR DR. PRASHANT MISHRA", "Endo"),
  ("CHROMIC CATGUT 1 X 50 LOOP", "Endo"),
  ("PE+PU ANATOMICAL MESH LEFT (11CM*15CM)", "Endo"),
  ("PE+PU ANATOMICAL MESH RIGHT (11CM*15CM)", "Endo"),
  ("PE+PU ANATOMICAL MESH LEFT (12CM*16CM)", "Endo"),
  ("PE+PU ANATOMICAL MESH RIGHT (12CM*16CM)", "Endo"),
  ("PE+PU MESH (15CM*15CM)", "Endo"),
  ("CLUTCH TOURNIQUET DEVICE-L", "Endo"),
  ("CLUTCH TOURNIQUET DEVICE-M", "Endo"),
  ("CLUTCH TOURNIQUET DEVICE-XL", "Endo"),
  ("DISPOSABLE BLADELESS TROCAR - 05 MM", "Endo"),
  ("DISPOSABLE BLADELESS TROCAR KIT 5-5 MM", "Endo"),
  ("DISPOSABLE BLADELESS TROCAR - 10 MM", "Endo"),
  ("DISPOSABLE BLADELESS TROCAR KIT 10-10 MM", "Endo"),
  ("DISPOSABLE BLADELESS TROCAR - 12 MM", "Endo"),
  ("DISPOSABLE BLADELESS TROCAR KIT 12-12 MM", "Endo"),
  ("DISPOSABLE BLADELESS TROCAR - 15MM", "Endo"),
  ("CU 375", "Endo"),
  ("CU 375 SLEEK", "Endo"),
  ("CU 250", "Endo"),
  ("CU 250 SLEEK", "Endo"),
  ("CU T 380A", "Endo"),
  ("HORMONAL INTRAUTERINE SYSTEM", "Endo"),
  ("LAPROSCOPIC APPLICATOR for Medium-Large Titanium clip", "Endo"),
  ("LAPROSCOPIC APPLICATOR for Large Titanium clip", "Endo"),
  ("LAPROSCOPIC APPLICATOR 300", "Endo"),
  ("LAPROSCOPIC APPLICATOR 400", "Endo"),
  ("Absorbable Gelatin Sponge 80 X 07MM ENDOSCOPIC TAMPON", "Endo"),
  ("Absorbable Gelatin Sponge 80*30 TAMPON", "Endo"),
  ("Absorbable Gelatin Sponge 80501 FILM", "Endo"),
  ("Absorbable Gelatin Sponge 805010 NO TOUCH", "Endo"),
  ("Absorbable Gelatin Sponge 805010 STANDARD", "Endo"),
  ("Absorbable Gelatin POWDER", "Endo"),
  ("OPEN APPLICATOR for Small Titanium clip 15CM", "Endo"),
  ("OPEN APPLICATOR for Small Titanium clip 20CM", "Endo"),
  ("OPEN APPLICATOR for Small Titanium clip 28CM", "Endo"),
  ("OPEN APPLICATOR for Medium Titanium clip 15CM", "Endo"),
  ("OPEN APPLICATOR for Medium Titanium clip 20CM", "Endo"),
  ("OPEN APPLICATOR for Medium Titanium clip 28CM", "Endo"),
  ("OPEN APPLICATOR for Medium-Large Titanium clip 15CM", "Endo"),
  ("OPEN APPLICATOR for Medium-Large Titanium clip 20CM", "Endo"),
  ("OPEN APPLICATOR for Medium-Large Titanium clip 28CM", "Endo"),
  ("OPEN APPLICATOR for Large Titanium clip 15CM", "Endo"),
  ("OPEN APPLICATOR for Large Titanium clip 20CM", "Endo"),
  ("OPEN APPLICATOR for Large Titanium clip 28CM", "Endo"),
  ("PGN01 2347DNL, NYL20 3336, PGN01 2347", "Endo"),
  ("AUTO LINEAR STAPLER 30mm", "Endo"),
  ("AUTO LINEAR STAPLER 45mm", "Endo"),
  ("bonewax x 2 gm", "Endo"),
  ("cabg kit for dr brij mohan singh", "Endo"),
  ("cabg kit for dr mahesh kedar", "Endo"),
  ("cabg kit dr vinayak karmarkar", "Endo"),
  ("cabg kit for dr prashant mishra", "Endo"),
  ("chromic catgut 1 x 50 loop", "Endo"),
  ("pe pu anatomical mesh left", "Endo"),
  ("pe pu anatomical mesh right", "Endo"),
  ("pe pu anatomical mesh left", "Endo"),
  ("pe pu anatomical mesh right", "Endo"),
  ("pe pu mesh", "Endo"),
  ("clutch tourniquet device l", "Endo"),
  ("clutch tourniquet device m", "Endo"),
  ("clutch tourniquet device xl", "Endo"),
  ("disposable bladeless trocar 5 mm", "Endo"),
  ("disposable bladeless trocar kit 5 5 mm", "Endo"),
  ("disposable bladeless trocar 10 mm", "Endo"),
  ("disposable bladeless trocar kit 10 10 mm", "Endo"),
  ("disposable bladeless trocar 12 mm", "Endo"),
  ("disposable bladeless trocar kit 12 12 mm", "Endo"),
  ("disposable bladeless trocar 15 mm", "Endo"),
  ("cu 375", "Endo"),
  ("cu 375 sleek", "Endo"),
  ("cu 250", "Endo"),
  ("cu 250 sleek", "Endo"),
  ("cu t 380a", "Endo"),
  ("hormonal intrauterine system", "Endo"),
  ("laparoscopic applicator medium large titanium clip", "Endo"),
  ("laparoscopic applicator large titanium clip", "Endo"),
  ("laparoscopic applicator 300", "Endo"),
  ("laparoscopic applicator 400", "Endo"),
  ("absorbable gelatin sponge 80 x 07mm endoscopic tampon", "Endo"),
  ("absorbable gelatin sponge 80 30 tampon", "Endo"),
  ("absorbable gelatin sponge 80 50 1 film", "Endo"),
  ("absorbable gelatin sponge 80 50 10 no touch", "Endo"),
  ("absorbable gelatin sponge 80 50 10 standard", "Endo"),
  ("absorbable gelatin powder", "Endo"),
  ("open applicator small titanium clip 15cm", "Endo"),
  ("open applicator small titanium clip 20cm", "Endo"),
  ("open applicator small titanium clip 28cm", "Endo"),
  ("open applicator medium titanium clip 15cm", "Endo"),
  ("open applicator medium titanium clip 20cm", "Endo"),
  ("open applicator medium titanium clip 28cm", "Endo"),
  ("open applicator medium large titanium clip 15cm", "Endo"),
  ("open applicator medium large titanium clip 20cm", "Endo"),
  ("open applicator medium large titanium clip 28cm", "Endo"),
  ("open applicator large titanium clip 15cm", "Endo"),
  ("open applicator large titanium clip 20cm", "Endo"),
  ("open applicator large titanium clip 28cm", "Endo"),
  ("pgn01 2347dnl nyl20 3336 pgn01 2347", "Endo"),
  ("auto linear stapler 30mm", "Endo"),
  ("auto linear stapler 45mm", "Endo"),
  ("auto linear stapler", "Endo"),
  ("ptfe pledget", "Endo"),
  ("disposable circular stapler", "Endo"),
  ("dial linear stapler", "Endo"),
  ("polyester whgr", "Endo"),
  ("polyester green", "Endo"),
  ("chromic catgut", "Endo"),
  ("chromic catgut", "Endo"),
  ("plain catgut", "Endo"),
  ("polyester green", "Endo"),
  ("polyester gr", "Endo"),
  ("polyester white", "Endo"),
  ("polyester wh", "Endo"),
  ("ne polyester white", "Endo"),
  ("ne polyester green", "Endo"),
  ("c1 polyester green", "Endo"),
  ("c2 polyester green", "Endo"),
  ("endoscopic linear cutter", "Endo"),
  ("endoscopic linear cutter short", "Endo"),
  ("endoscopic linear cutter medium", "Endo"),
  ("endoscopic linear cutter long", "Endo"),
  ("power endoscopic linear cutter", "Endo"),
  ("power endocutter", "Endo"),
  ("power endocutter reload", "Endo"),
  ("power endoscopic linear cutter reload", "Endo"),
  ("trio staple technology", "Endo"),
  ("vascular reload", "Endo"),
  ("vascular medium reload", "Endo"),
  ("gynaecologist laser hand piece", "Endo"),
  ("mesic gynaecologist laser hand piece", "Endo"),
  ("powered hernia mesh fixation device", "Endo"),
  ("mesh fixation device", "Endo"),
  ("powered tacker", "Endo"),
  ("polylactide co glycolide absorbable", "Endo"),
  ("titanium non absorbable", "Endo"),
  ("disposable circular stapler", "Endo"),
  ("disposable linear cutter", "Endo"),
  ("disposable linear cutter reload", "Endo"),
  ("disposable liner stapler dial reload", "Endo"),
  ("polylactide co glycolide absorbable mesh fixation device", "Endo"),
  ("titanium non absorbable mesh fixation device", "Endo"),
  ("disposable linear stapler reload", "Endo"),
  ("disposable liner stapler dial reload", "Endo"),
  ("liver kit", "Endo"),
  ("liver transplant kit", "Endo"),
  ("titanium ligating clip small", "Endo"),
  ("titanium ligating clip medium", "Endo"),
  ("titanium ligating clip medium large", "Endo"),
  ("ligating clip", "Endo"),
  ("titanium ligating clip large", "Endo"),
  ("polyester white green", "Endo"),
  ("pledgets", "Endo"),
  ("polyester whgr", "Endo"),
  ("polyester xl whgr", "Endo"),
  ("disposable bladeless optical trocar", "Endo"),
  ("disposable trocar", "Endo"),
  ("trocar", "Endo"),
  ("disposable bladeless optical long sleeve trocar", "Endo"),
  ("powered hernia mesh fixation device absorbable", "Endo"),
  ("disposable hemorrhoids stapler", "Endo"),
  ("disposable hemorrhoid stapler", "Endo"),
  ("long sleeve trocar", "Endo"),
  ("disposable pph", "Endo"),
  ("polyglycolic acid violet", "Endo"),
  ("polyglycolic acid undyed", "Endo"),
  ("polyglycolic acid violet heavy", "Endo"),
  ("polyglycolic acid rpd undyed", "Endo"),
  ("suture practice starter kit basic", "Endo"),
  ("disposable skin stapler", "Endo"),
  ("skin stapler", "Endo"),
  ("skin stapler plus", "Endo"),
  ("meril suture practice starter kit basic", "Endo"),
  ("ultrasonic generator", "Endo"),
  ("compact ultrasonic generator", "Endo"),
  ("skin stapler hand piece transducer", "Endo"),
  ("ultrasonic scalpel", "Endo"),
  ("hand piece transducer", "Endo"),
  ("ultrasonic scalpel with transducer", "Endo"),
  ("mvr kit", "Endo"),
  ("polyamide black", "Endo"),
  ("polyamide black", "Endo"),
  ("ne polyamide black", "Endo"),
  ("loop polyamide black", "Endo"),
  ("oxidized regenerated cellulose fibre", "Endo"),
  ("oxidized regenerated cellulose standard", "Endo"),
  ("oxidized regenerated cellulose woven", "Endo"),
  ("polyglecaprone undyed", "Endo"),
  ("polyglecaprone violet", "Endo"),
  ("polyglecaprone", "Endo"),
  ("polyglycaprone undyed", "Endo"),
  ("polyglycaprone violet", "Endo"),
  ("polypropylene polyglecaprone composite mesh", "Endo"),
  ("pacing wire", "Endo"),
  ("polydioxanone", "Endo"),
  ("polydioxanone violet", "Endo"),
  ("polyester 3d mesh", "Endo"),
  ("polyglactin 910 fast undyed", "Endo"),
  ("Round Body", "Endo"),
  ("Taper Cut", "Endo"),
  ("Tapercut", "Endo"),
  ("Reverse Cutting", "Endo"),
  ("Cutting", "Endo"),
  ("Blunt Point", "Endo"),
  ("SKKI Round Body", "Endo"),
  ("SKKI Needle", "Endo"),
  ("V-Black Needle", "Endo"),
  ("Round Body Double Needle", "Endo"),
  ("Taper Cut Double Needle", "Endo"),
  ("Reverse Cutting Double Needle", "Endo"),
  ("NE (non-eyed)", "Endo"),
  ("PRC I", "Endo"),
  ("HCRCRBDN", "Endo"),
  ("C1", "Endo"),
  ("TN", "Endo"),
  ("TH", "Endo"),
  ("VB (V-Black)", "Endo"),
  ("BP (Blunt Point)", "Endo"),
  ("Elixir Flash Point Needle", "Endo"),
  ("Polyglactin 910 Violet 2 X 90 40MM 1/2 Circle Round Body", "Endo"),
  ("Polyglactin 910 Violet 1 X 75 31MM J Tapercut", "Endo"),
  ("Polyglactin 910 Violet 2 X 90 40MM 1/2 Circle Reverse Cutting", "Endo"),
  ("Polyglactin 910 Undyed 1 X 90 36MM 1/2 Circle Round Body", "Endo"),
  ("NE Polyglactin 910 Violet 2 X 90 40MM 1/2 Circle Reverse Cutting", "Endo"),
  ("Polyglactin 910 Violet 1 X 90 45MM 1/2 Circle BP", "Endo"),
  ("Polyglactin 910 Violet 0 X 90 30MM 1/2 Circle Round Body", "Endo"),
  ("Polyglactin 910 Violet 1 X 180 40MM 1/2 Circle Round Body Tapercut Double Needle", "Endo"),
  ("Polyglactin 910 Violet 0 X 70 30MM 1/2 Circle Round Body", "Endo"),
  ("Polyglactin 910 Violet 1 X 110 40MM 1/2 Circle Round Body", "Endo"),
  ("Polyglactin 910 Violet 0 X 90 40MM 1/2 Circle Round Body", "Endo"),
  ("Polyglactin 910 Violet 1 X 90 40MM 1/2 Circle Round Body H", "Endo"),
  ("Polyglactin 910 Violet 0 X 140 40MM 1/2 Circle Round Body Taper Cut Double Needle", "Endo"),
  ("Polyglactin 910 Violet 1 X 45 40MM 1/2 Circle Round Body", "Endo"),
  ("Polyglactin 910 Violet 0 X 180 40MM 1/2 Circle Round Body Taper Cut Double Needle", "Endo"),
  ("Polyglactin 910 Violet 1 X 120 36MM 1/2 Circle Round Body", "Endo"),
  ("Polyglactin 910 Violet 0 X 110 40MM 1/2 Circle Round Body", "Endo"),
  ("Polyglactin 910 Violet 1 X 90 40MM 1/2 Circle Reverse Cutting", "Endo"),
  ("Polyglactin 910 Violet 0 X 45 40MM 1/2 Circle Round Body", "Endo"),
  ("Polyglactin 910 Violet 1 X 180 50 40MM 1/2 Circle Round Body Tapercut Double Needle", "Endo"),
  ("Polyglactin 910 Violet 0 X 90 36MM 1/2 Circle Taper Cut", "Endo"),
  ("Polyglactin 910 Violet 1 X 35 23MM 1/2 Circle Reverse Cutting", "Endo"),
  ("Polyglactin 910 Violet 0 X 90 40MM 1/2 Circle Taper Cut", "Endo"),
  ("Polyglactin 910 Violet 2 X 90 40MM 1/2 Circle Round Body", "Endo"),
  ("Polyglactin 910 Violet 0 X 90 36MM 1/2 Circle Reverse Cutting", "Endo"),
  ("Polyglactin 910 Violet 2 X 90 40MM 1/2 Circle Reverse Cutting", "Endo"),
  ("Polyglactin 910 Violet 0 X 70 40MM 1/2 Circle Round Body", "Endo"),
  ("Polyglactin 910 Violet 0 X 45 23MM 1/2 Circle Reverse Cutting", "Endo"),
  ("Polyglactin 910 Violet 0 X 90 30MM 1/2 Circle Round Body", "Endo"),
  ("Polyglactin 910 Violet 0 X 45 22MM SKKI Round Body V Black Needle", "Endo"),
  ("Polyglactin 910 Violet 0 X 70 30MM 1/2 Circle Round Body", "Endo"),
  ("Polyglactin 910 Violet 0 X 90 40MM 1/2 Circle Blunt Point", "Endo"),
  ("Polyglactin 910 Violet 0 X 90 40MM 1/2 Circle Round Body", "Endo"),
  ("Polyglactin 910 Undyed 0 X 90 36MM 1/2 Circle Round Body", "Endo"),
  ("Polyglactin 910 Violet 0 X 140 40MM 1/2 Circle Round Body Tapercut Double Needle", "Endo"),
  ("Polyglactin 910 Undyed 0 X 75 40MM 1/2 Circle Taper Cut", "Endo"),
  ("Polyglactin 910 Violet 0 X 180 40MM 1/2 Circle Round Body Tapercut Double Needle", "Endo"),
  ("NE Polyglactin 910 Violet 0 X 90 30MM 1/2 Circle Round Body", "Endo"),
  ("Polyglactin 910 Violet 0 X 110 40MM 1/2 Circle Round Body", "Endo"),
  ("NE Polyglactin 910 Violet 0 X 180 40MM 1/2 Circle Round Body Taper Cut Double Needle", "Endo"),
  ("Polyglactin 910 Violet 0 X 45 40MM 1/2 Circle Round Body", "Endo"),
  ("NE Polyglactin 910 Violet 0 X 110 40MM 1/2 Circle Round Body", "Endo"),
  ("Polyglactin 910 Violet 0 X 90 40MM 1/2 Circle Round Body C1", "Endo"),
  ("NE Polyglactin 910 Violet 0 X 90 40MM 1/2 Circle Round Body", "Endo"),
  ("Polyglactin 910 Violet 0 X 90 36MM 1/2 Circle Tapercut C1", "Endo"),
  ("NE Polyglactin 910 Violet 0 X 90 36MM 1/2 Circle Reverse Cutting", "Endo"),
  ("Polyglactin 910 Violet 0 X 90 40MM 1/2 Circle Tapercut", "Endo"),
  ("Polyglactin 910 Violet 2 0 X 70 26MM 1/2 Circle Round Body V Black Needle", "Endo"),
  ("Polyglactin 910 Violet 0 X 90 36MM 1/2 Circle Reverse Cutting", "Endo"),
  ("Polyglactin 910 Violet 2 0 X 90 30MM 3/8 Circle Reverse Cutting", "Endo"),
  ("Polyglactin 910 Violet 0 X 70 40MM 1/2 Circle Round Body", "Endo"),
  ("Polyglactin 910 Violet 2 0 X 90 30MM 1/2 Circle Round Body", "Endo"),
  ("Polyglactin 910 Violet 0 X 45 23MM 1/2 Circle Reverse Cutting", "Endo"),
  ("Polyglactin 910 Violet 2 0 X 140 30MM 1/2 Circle Round Body Taper Cut Double Needle", "Endo"),
  ("Polyglactin 910 Violet 0 X 45 22MM SKKI Round Body VB", "Endo"),
  ("Polyglactin 910 Violet 2 0 X 45 30MM 1/2 Circle Round Body", "Endo"),
  ("Polyglactin 910 Violet 0 X 90 40MM 1/2 Circle BP", "Endo"),
  ("Polyglactin 910 Violet 2 0 X 90 30MM 1/2 Circle Round Body Double Needle", "Endo"),
  ("Polyglactin 910 Undyed 0 X 90 36MM 1/2 Circle Round Body", "Endo"),
  ("Polyglactin 910 Violet 2 0 X 70 30MM 1/2 Circle Round Body", "Endo"),
  ("Polyglactin 910 Undyed 0 X 75 40MM 1/2 Circle Tapercut", "Endo"),
  ("Polyglactin 910 Violet 2 0 X 90 40MM 1/2 Circle Round Body", "Endo"),
  ("Polyglactin 910 Violet 0 X 90 30MM 1/2 Circle Round Body", "Endo"),
  ("Polyglactin 910 Violet 2 0 X 90 26MM 1/2 Circle Round Body", "Endo"),
  ("Polyglactin 910 Violet 0 X 180 40MM 1/2 Circle Round Body Tapercut Double Needle", "Endo"),
  ("Polyglactin 910 Violet 2 0 X 35 26MM 1/2 Circle Round Body", "Endo"),
  ("Polyglactin 910 Violet 0 X 110 40MM 1/2 Circle Round Body", "Endo"),
  ("Polyglactin 910 Violet 2 0 X 90 40MM 1/2 Circle Reverse Cutting", "Endo"),
  ("Polyglactin 910 Violet 0 X 90 40MM 1/2 Circle Round Body", "Endo"),
  ("Polyglactin 910 Undyed 2 0 X 76 60MM Straight Cutting", "Endo"),
  ("Polyglactin 910 Violet 0 X 90 36MM 1/2 Circle Reverse Cutting", "Endo"),
  ("Polyglactin 910 Undyed 2 0 X 90 26MM 3/8 Circle Cutting", "Endo"),
  ("Polyglactin 910 Violet 2 0 X 70 26MM 1/2 Circle Round Body VB", "Endo"),
  ("Polyglactin 910 Violet 2 0 X 45 19MM SKKI Round Body", "Endo"),
  ("Polyglactin 910 Violet 2 0 X 90 30MM 3/8 Circle Reverse Cutting", "Endo"),
  ("Polyglactin 910 Violet 2 0 X 70 36MM 1/2 Circle Round Body", "Endo"),
  ("Polyglactin 910 Violet 2 0 X 90 30MM 1/2 Circle Round Body", "Endo"),
  ("Polyglactin 910 Violet 2 0 X 70 26MM 5/8 Circle Round Body", "Endo"),
  ("Polyglactin 910 Violet 2 0 X 140 30MM 1/2 Circle Round Body Taper Cut Double Needle", "Endo"),
  ("Polyglactin 910 Violet 2 0 X 110 26MM 5/8 Circle Round Body", "Endo"),
  ("Polyglactin 910 Violet 2 0 X 45 30MM 1/2 Circle Round Body", "Endo"),
  ("Polyglactin 910 Violet 2 0 X 75 26MM 1/2 Circle Taper Cut", "Endo"),
  ("Polyglactin 910 Violet 2 0 X 90 30MM 1/2 Circle Round Body Double Needle", "Endo"),
  ("Polyglactin 910 Undyed 2 0 X 90 36MM 1/2 Circle Round Body", "Endo"),
  ("Polyglactin 910 Violet 2 0 X 70 30MM 1/2 Circle Round Body", "Endo"),
  ("Polyglactin 910 Violet 2 0 X 75 22MM 1/2 Circle Taper Cut", "Endo"),
  ("Polyglactin 910 Violet 2 0 X 90 40MM 1/2 Circle Round Body", "Endo"),
  ("NE Polyglactin 910 Violet 2 0 X 90 30MM 1/2 Circle Round Body", "Endo"),
  ("Polyglactin 910 Violet 2 0 X 90 26MM 1/2 Circle Round Body", "Endo"),
  ("NE Polyglactin 910 Violet 2 0 X 90 40MM 1/2 Circle Round Body", "Endo"),
  ("Polyglactin 910 Violet 2 0 X 35 26MM 1/2 Circle Round Body", "Endo"),
  ("NE Polyglactin 910 Violet 2 0 X 90 40MM 1/2 Circle Reverse Cutting", "Endo"),
  ("Polyglactin 910 Violet 2 0 X 90 40MM 1/2 Circle Reverse Cutting", "Endo"),
  ("NE Polyglactin 910 Undyed 2 0 X 90 26MM 3/8 Circle Cutting", "Endo"),
  ("Polyglactin 910 Undyed 2 0 X 76 60MM Straight Cutting", "Endo"),
  ("Polyglactin 910 Undyed 2 0 X 75 26MM 3/8 Circle Cutting", "Endo"),
  ("Polyglactin 910 Violet 2 0 X 90 20MM 1/2 Circle Round Body", "Endo"),
  ("Polyglactin 910 Violet 2 0 X 45 19MM SKKI Round Body", "Endo"),
  ("polyglactin 910 violet", "Endo"),
  ("polyglactin 910 undyed", "Endo"),
  ("ne polyglactin 910 undyed", "Endo"),
  ("ne polyglactin 910 violet", "Endo"),
  ("vb polyglactin 910 violet", "Endo"),
  ("polyglactin 910 c plus violet", "Endo"),
  ("polyglactin 910 c plus undyed", "Endo"),
  ("ih polyglactin 910 with triclosan violet", "Endo"),
  ("polyglactin 910 violet c plus", "Endo"),
  ("polyglactin 910 c plus violet tn", "Endo"),
  ("polyglactin 910 c plus violet th", "Endo"),
  ("polyglactin 910 c plus violet ih", "Endo"),
  ("polyglactin 910 c plus undyed tn", "Endo"),
  ("polyglactin 910 c plus undyed th", "Endo"),
  ("IH Polyglactin 910  With triclosan Undyed", "Endo"),
  ("POLYGLACTIN 910  C PLUS UNDYED", "Endo"),
  ("NE Polyglactin 910  With triclosan Violet", "Endo"),
  ("POLYGLACTIN 910  WITH TRICLOSAN UNDYED", "Endo"),
  ("BARB Polyglycolic Acid  Poly", "Endo"),
  ("barb polyglycolic acid", "Endo"),
  ("poly glycolide co caprolactone undyed", "Endo"),
  ("Barbed sutures PDS violet", "Endo"),
  ("Unidirectional barbed sutures", "Endo"),
  ("Bidirectional barbed sutures", "Endo"),
  ("1/2 circle round body needle", "Endo"),
  ("3/8 circle cutting needle", "Endo"),
  ("Reverse cutting needle", "Endo"),
  ("Taper cut needle", "Endo"),
  ("Double needle sutures", "Endo"),
  ("Loop polypropylene sutures", "Endo"),
  ("Polypropylene blue surgical suture", "Endo"),
  ("HCRB, HCTC, TP double‚Äëneedle sutures", "Endo"),
  ("Polymer surgical clips", "Endo"),
  ("Medium / large / extra‚Äëlarge polymer clips", "Endo"),
  ("Polypropylene 3D hernia mesh", "Endo"),
  ("Inguinal anatomical mesh", "Endo"),
  ("EO sterilized mesh", "Endo"),
  ("Large‚Äëpore polypropylene mesh", "Endo"),
  ("Polypropylene suture", "Endo"),
  ("Polypropylene mesh", "Endo"),
  ("Non-absorbable suture", "Endo"),
  ("Surgical suture", "Endo"),
  ("Double needle suture", "Endo"),
  ("Round body needle", "Endo"),
  ("Reverse cutting needle", "Endo"),
  ("Taper cut needle", "Endo"),
  ("Elixir needle", "Endo"),
  ("V‚Äëblack needle", "Endo"),
  ("HCRB needle", "Endo"),
  ("CURB needle", "Endo"),
  ("DVB needle", "Endo"),
  ("Surgical mesh", "Endo"),
  ("Polypropylene macroporous mesh", "Endo"),
  ("Lightweight mesh", "Endo"),
  ("Heavyweight mesh", "Endo"),
  ("Laparoscopic clip applicator", "Endo"),
  ("Polymer clip applicator", "Endo"),
  ("Open clip applicator", "Endo"),
  ("Polypropylene 5‚Äë0 suture", "Endo"),
  ("Polypropylene 6‚Äë0 suture", "Endo"),
  ("Polypropylene 7‚Äë0 suture", "Endo"),
  ("Polypropylene 8‚Äë0 suture", "Endo"),
  ("3/8 circle needle", "Endo"),
  ("1/2 circle needle", "Endo"),
  ("45mm ‚Äì 90mm needle", "Endo"),
  ("6mm ‚Äì 17mm needle sizes", "Endo"),
  ("Round body needle", "Endo"),
  ("Reverse cutting needle", "Endo"),
  ("Cutting needle", "Endo"),
  ("Taper point needle", "Endo"),
  ("Taper cut needle", "Endo"),
  ("Easy glide needle", "Endo"),
  ("Black needle", "Endo"),
  ("V‚Äëblack needle", "Endo"),
  ("Elixir needle", "Endo"),
  ("Polypropylene mesh 10√ó15 cm", "Endo"),
  ("Polypropylene mesh 12√ó15 cm", "Endo"),
  ("Polypropylene mesh 12√ó18 cm", "Endo"),
  ("Polypropylene mesh 15√ó15 cm", "Endo"),
  ("Polypropylene mesh 15√ó20 cm", "Endo"),
  ("Polypropylene mesh 15√ó30 cm", "Endo"),
  ("Polypropylene mesh 30√ó30 cm", "Endo"),
  ("Polypropylene mesh 50√ó50 cm", "Endo"),
  ("Macroporous lightweight mesh", "Endo"),
  ("Soft polypropylene mesh", "Endo"),
  ("Polymer clip laparoscopic applicator", "Endo"),
  ("Medium‚Äìlarge clip applicator", "Endo"),
  ("Large clip applicator", "Endo"),
  ("Extra-large clip applicator", "Endo"),
  ("Open clip applicator 30¬∞", "Endo"),
  ("Laparoscopic surgical instruments", "Endo"),
  ("Sterilized polypropylene", "Endo"),
  ("Ethylene oxide sterilized", "Endo"),
  ("Macroporous structure", "Endo"),
  ("100 gsm mesh", "Endo"),
  ("1.0 √ó 1.2 mm pore size", "Endo"),
  ("0.48 mm thickness", "Endo"),
  ("106.3 N/cm¬≤ burst strength", "Endo"),
  ("polypropylene blue 6 0 x 70 13mm", "Endo"),
  ("polypropylene bu 5 0 x 70 12mm", "Endo"),
  ("polypropylene blue 6 0 x 60 13mm", "Endo"),
  ("polypropylene bu 5 0 x 90 16mm hcrb", "Endo"),
  ("polypropylene blue 6 0 x 60 10mm", "Endo"),
  ("polypropylene bu 5 0 x 90 16mm hcrb", "Endo"),
  ("polypropylene blue 6 0 x 70 15mm", "Endo"),
  ("polypropylene bu 5 0 x 90 16mm hcrb", "Endo"),
  ("polypropylene blue 6 0 x 70 13mm", "Endo"),
  ("polypropylene bu 5 0 x 70 13mm", "Endo"),
  ("Polypropylene mesh", "Endo"),
  ("Synthetic Non-absorbable Polypropylene Macroporous Light Weight Mesh", "Endo"),
  ("Polypropylene mesh soft", "Endo"),
  ("POLYMER CLIP LAPROSCOPIC APLICATOR for medium large clips", "Endo"),
  ("silk black", "Endo"),
  ("plain catgut", "Endo"),
  ("metal skin stapler", "Endo"),
  ("v shape ligation clip", "Endo"),
  ("Laser Ablation System Kit", "Endo")]

/-- The keyword table over `Str`. -/
def CATEGORY_KEYWORDS : List (Str × Str) :=
  categoryKeywordPairs.map fun kc => (kc.1.data, kc.2.data)

/-- The `(len(kw), kw, cat)` hit list collected by `detect_category_from_query`
(global_relevancy.py:743-746), in table order. -/
def categoryHits (nfkd : Str → Str) (q : Str) : List (Nat × Str × Str) :=
  let ql := lowerStr (normalize_text nfkd q)
  CATEGORY_KEYWORDS.filterMap fun kc =>
    if kc.1 <:+: ql then some (kc.1.length, kc.1, kc.2) else none

/-- The catalog token-overlap vote of `detect_category_from_query`
(global_relevancy.py:752-770): fold over the catalog keeping the first item
attaining each strict improvement of the overlap count. -/
def categoryVote (nfkd : Str → Str) (catalog : List CatalogItem) (q : Str) : Option Str :=
  let qTokens := token_set nfkd q
  let folded := catalog.foldl
    (fun (acc : Option Str × Nat) it =>
      let combined := it.title ++ (' ' :: it.category) ++ (' ' :: it.type) ++ (' ' :: it.merged_text)
      let score := interCount qTokens (token_set nfkd combined)
      if acc.2 < score then (some (pyOrS (some it.category) it.type), score) else acc)
    (none, 0)
  if 0 < folded.2 then folded.1 else none

/-- `detect_category_from_query` (global_relevancy.py:740-772): keyword hits
sorted descending by `(len, kw, cat)` win; otherwise, when a (truthy,
i.e. nonempty) catalog is supplied, the token-overlap vote. -/
def detect_category_from_query (nfkd : Str → Str) (catalog : List CatalogItem) (q : Str) : Option Str :=
  let hits := categoryHits nfkd q
  if hits.isEmpty then
    if catalog.isEmpty then none
    else categoryVote nfkd catalog q
  else
    match sortDesc hitLt hits with
    | [] => none
    | h :: _ => some h.2.2

/-- The split-delimiter character class `[,;|\n]` of `split_multi_query`. -/
def delimChar (c : Char) : Bool :=
  c == ',' || c == ';' || c == '|' || c == '\n'

/-- ASCII regex `\d`. -/
def digitChar (c : Char) : Bool := '0' ≤ c && c ≤ '9'

/-- A numbered-list marker `\d+[.)]\s*` anchored at the head of `s`, returning
the remainder after the marker.  `\d+` is greedy and `[.)]` cannot match a
digit, so the regex needs no backtracking here. -/
def numberedMarker (s : Str) : Option Str :=
  let ds := s.takeWhile digitChar
  if ds.isEmpty then none
  else
    match s.drop ds.length with
    | [] => none
    | c :: r => if c == '.' || c == ')' then some (r.dropWhile pyWS) else none

/-- Fueled scanner for `re.split(r"[,;|\n]|\d+[\.)]\s*", s)`: scan left to
right, cutting at each single delimiter character or numbered-list marker (the
character class is the first regex alternative; the two alternatives can never
match at the same position).  Each recursive call shortens the string by at
least one character, so with `fuel ≥ s.length` the fuel case is never hit;
fuel makes the recursion structural, hence kernel-evaluable. -/
def splitPartsF : Nat → Str → List Str
  | _, [] => [[]]
  | 0, s => [s]
  | fuel + 1, c :: rest =>
    if delimChar c then [] :: splitPartsF fuel rest
    else
      match numberedMarker (c :: rest) with
      | some r => [] :: splitPartsF fuel r
      | none =>
        match splitPartsF fuel rest with
        | [] => [[c]]
        | p :: ps => (c :: p) :: ps

/-- `re.split(r"[,;|\n]|\d+[\.)]\s*", s)`. -/
def splitParts (s : Str) : List Str := splitPartsF s.length s

/-- The punctuation-and-space class of the edge-stripping
`re.sub(r"^[-:…\s]+|[-:…\s]+$", "", part)` in `split_multi_query`: the
source characters are `-`, `:`, U+201A, U+00C4, U+00A2 (a mojibake-encoded
bullet) and whitespace. -/
def edgeJunk (c : Char) : Bool :=
  c == '-' || c == ':' || c.toNat == 0x201a || c.toNat == 0xc4 ||
  c.toNat == 0xa2 || pyWS c

/-- Strip the leading and the trailing `edgeJunk` run (the two alternatives
of the anchored regex; they can only overlap when they are the same run). -/
def stripEdgeJunk (s : Str) : Str := (s.dropWhile edgeJunk).rdropWhile edgeJunk

/-- The dash class of the trailing-location regexes: `-`, U+201A, U+00C4 and
U+00EC (the source's mojibake en dash); under `re.IGNORECASE` the two cased
letters also match their case partners U+00E4 and U+00CC. -/
def locDash (c : Char) : Bool :=
  c == '-' || c.toNat == 0x201a || c.toNat == 0xc4 || c.toNat == 0xe4 ||
  c.toNat == 0xec || c.toNat == 0xcc

/-- The class `[a-z\s]` under `re.IGNORECASE`. -/
def azWs (c : Char) : Bool :=
  ('a' ≤ c && c ≤ 'z') || ('A' ≤ c && c ≤ 'Z') || pyWS c

/-- Whether `t` starts with `w`, ASCII-case-insensitively. -/
def startsCI (w t : Str) : Bool := decide (lowerStr (t.take w.length) = lowerStr w)

/-- The tail `word s? \s* $` (with the optional plural `s` only when `allowS`)
of a trailing-location regex. -/
def locTail (word : Str) (allowS : Bool) (t : Str) : Bool :=
  startsCI word t &&
  ((t.drop word.length).all pyWS ||
   (allowS && startsCI ['s'] (t.drop word.length) &&
     (t.drop (word.length + 1)).all pyWS))

/-- Whether `\s*[-…]\s*[a-z\s]+word(s?)\s*$` matches at position `i` of `s`:
the `\s*` before the mandatory dash is forced to the maximal run (no dash
character is whitespace), and the `\s*` after it is absorbed by `[a-z\s]+`,
which contains all of `\s`. -/
def locSuffixAt (word : Str) (allowS : Bool) (s : Str) (i : Nat) : Bool :=
  let t := s.drop i
  let ws := t.takeWhile pyWS
  match t.drop ws.length with
  | [] => false
  | c :: u =>
    locDash c &&
    (List.range (u.length + 1)).any fun k =>
      decide (1 ≤ k) && (u.take k).all azWs && locTail word allowS (u.drop k)

/-- `re.sub` of an end-anchored pattern deletes from the leftmost position
where the pattern matches through to the end (at most one match exists). -/
def stripLocSuffix (word : Str) (allowS : Bool) (s : Str) : Str :=
  match (List.range (s.length + 1)).find? (fun i => locSuffixAt word allowS s i) with
  | some i => s.take i
  | none => s

/-- Strip one leading boilerplate marker, i.e. one
`re.sub(r"^w1\s+w2\s*[-:]*\s*", "", q, flags=re.IGNORECASE)` of
`split_multi_query`; each greedy piece is forced because the classes are
disjoint from what must follow. -/
def stripBoiler (w1 w2 : Str) (s : Str) : Str :=
  if startsCI w1 s then
    let r1 := s.drop w1.length
    let ws := r1.takeWhile pyWS
    if ws.isEmpty then s
    else
      let r2 := r1.drop ws.length
      if startsCI w2 r2 then
        (((r2.drop w2.length).dropWhile pyWS).dropWhile
          (fun c => c == '-' || c == ':')).dropWhile pyWS
      else s
  else s

/-- The five boilerplate prefixes, in source order
(global_relevancy.py:857-866). -/
def boilerPairs : List (Str × Str) :=
  [("supply".data, "of".data), ("requirement".data, "of".data),
   ("procurement".data, "of".data), ("purchase".data, "of".data),
   ("quotation".data, "for".data)]

/-- The per-fragment cleaning of `split_multi_query`
(global_relevancy.py:874-894): strip; drop when shorter than 3; strip edge
punctuation; drop when shorter than 5; strip the `…equipments?` and then the
`…hospital` trailing-location suffix; strip again. -/
def cleanPart (p : Str) : Option Str :=
  let p1 := pyStrip p
  if p1.length < 3 then none
  else
    let p2 := stripEdgeJunk p1
    if p2.length < 5 then none
    else
      let p3 := stripLocSuffix ("equipment".data) true p2
      let p4 := stripLocSuffix ("hospital".data) false p3
      some (pyStrip p4)

/-- The normalized query with the five boilerplate `re.sub`s applied in
source order (global_relevancy.py:853-866). -/
def boiledQuery (nfkd : Str → Str) (query : Str) : Str :=
  boilerPairs.foldl (fun acc ww => stripBoiler ww.1 ww.2 acc) (normalize_text nfkd query)

/-- `split_multi_query` (global_relevancy.py:843-900). -/
def split_multi_query (nfkd : Str → Str) (query : Str) : List Str :=
  let q2 := boiledQuery nfkd query
  let queries := (splitParts q2).filterMap cleanPart
  if queries.isEmpty then [pyStrip q2] else queries

/-- Python's substring test `needle in hay`. -/
def strIn (needle hay : Str) : Bool := decide (needle <:+: hay)

/-- A query-level result: the dict built by `predict_single`.  `query_number`
is only added afterwards by `predict`, so it is optional here. -/
structure QueryRes where
  query : Str
  detected_category : Option Str
  relevancy_score : ℚ
  relevant : Bool
  best_match : CandMatch
  top_matches : List CandMatch
  model_used : Str
  query_number : Option Nat
deriving DecidableEq

/-- The loose result dict of a specialized scorer
(`analyser_relevancy.predict_relevancy` or `endo_relevancy.predict_endo`),
with one optional field per key that `predict_single` probes. -/
structure RawScorerRes where
  relevancy_score : Option ℚ
  relevancy : Option ℚ
  relevant : Option Bool
  best_match : Option RawMatch
  top_matches : Option (List RawMatch)
deriving DecidableEq

/-- The engine context: the catalog and embedding matrix loaded at process
start, plus the external collaborators (NFKD, `math.exp`, the encoder and
the optional specialized scorers with their availability flags). -/
structure Ctx where
  nfkd : Str → Str
  fexp : ℚ → ℚ
  catalog : List CatalogItem
  emb : List (List ℚ)
  encode : Str → Except Str (List ℚ)
  hasAnalyser : Bool
  analyserPredict : Str → Nat → Except Str RawScorerRes
  hasEndo : Bool
  endoPredict : Str → Nat → Except Str RawScorerRes

/-- `np.dot` of two vectors. -/
def dotQ (a b : List ℚ) : ℚ := ((a.zip b).map fun p => p.1 * p.2).sum

def EMB_WEIGHT : ℚ := 1.0

def TOKEN_WEIGHT : ℚ := 0.35

def TITLE_WEIGHT : ℚ := 0.5

def CATEGORY_BOOST : ℚ := 0.25

def TOP_K : Nat := 5

/-- Truthiness of the detected category: Python's `if detected_category:` is
false both for `None` and for the empty string. -/
def dcTruthy : Option Str → Bool
  | none => false
  | some s => !s.isEmpty

/-- One iteration of the scoring loop of `predict_single`
(global_relevancy.py:1034-1069): the match dict for catalog position `i`,
with the sequential `raw += …` boosts written as successive lets. -/
def scoreItem (ctx : Ctx) (q qLower : Str) (dc : Option Str) (sims : List ℚ)
    (i : Nat) (item : CatalogItem) : CandMatch :=
  let emb_score : ℚ := if i < sims.length then sims.getD i 0 else 0
  let tok := token_overlap ctx.nfkd q item.merged_text
  let title_tok := token_overlap ctx.nfkd q item.title
  let raw0 := EMB_WEIGHT * emb_score + TOKEN_WEIGHT * tok + TITLE_WEIGHT * title_tok
  let raw1 :=
    if dcTruthy dc &&
        (strIn (lowerStr (dc.getD [])) (lowerStr item.category) ||
         strIn (lowerStr (dc.getD [])) (lowerStr item.type)) then
      raw0 + CATEGORY_BOOST
    else raw0
  let pc := lowerStr item.product_code
  let raw2 := if !pc.isEmpty && wholeWordIn pc qLower then raw1 + 0.5 else raw1
  { index := some ((item.index).getD (i : Int))
    product_code := item.product_code
    title := item.title
    type := item.type
    category := item.category
    specification := item.specification
    emb_score := emb_score
    token_score := tok
    title_overlap := title_tok
    raw_score := raw2
    relevancy := 1 / (1 + ctx.fexp (-raw2)) }

/-- The comparator of `results.sort(key=lambda x: x["raw_score"], reverse=True)`. -/
def rawLt (a b : CandMatch) : Bool := decide (a.raw_score < b.raw_score)

/-- The scored match list of the generic path, in catalog order
(global_relevancy.py:1029-1069): `sims = np.dot(EMB, q_emb)` followed by the
`for i, item in enumerate(INDEX)` loop. -/
def genMatches (ctx : Ctx) (q : Str) (dc : Option Str) (qEmb : List ℚ) : List CandMatch :=
  let sims := ctx.emb.map fun row => dotQ row qEmb
  (ctx.catalog.enum).map fun ie => scoreItem ctx q (lowerStr q) dc sims ie.1 ie.2

/-- The generic ("global fallback") part of `predict_single`
(global_relevancy.py:1028-1087), given the query embedding `qEmb` returned by
the encoder. -/
def genericResult (ctx : Ctx) (topk : Nat) (q : Str) (dc : Option Str)
    (qEmb : List ℚ) : QueryRes :=
  let top := (sortDesc rawLt (genMatches ctx q dc qEmb)).take topk
  { query := q
    detected_category := dc
    relevancy_score := match top.head? with | some b => b.relevancy | none => 0
    relevant := is_relevant_by_density top
    best_match := match top.head? with | some b => b | none => sanitize_match RawMatch.empty
    top_matches := top
    model_used := ("global_index").data
    query_number := none }

/-- The result dict built by the analyser route of `predict_single`
(global_relevancy.py:982-999) from a successful scorer reply. -/
def analyserRoute (q : Str) (r : RawScorerRes) : QueryRes :=
  { query := q
    detected_category := some (("Analyser").data)
    relevancy_score := pyOrQ r.relevancy_score (pyOrQ r.relevancy 0)
    relevant := r.relevant.getD false
    best_match := sanitize_match (r.best_match.getD RawMatch.empty)
    top_matches := (r.top_matches.getD []).map sanitize_match
    model_used := ("analyser_relevancy").data
    query_number := none }

/-- The result dict built by the endo route of `predict_single`
(global_relevancy.py:1007-1023) from a successful scorer reply. -/
def endoRoute (q : Str) (r : RawScorerRes) : QueryRes :=
  let best := sanitize_match (r.best_match.getD RawMatch.empty)
  { query := q
    detected_category := some (("Endo").data)
    relevancy_score := pyOrQ r.relevancy_score (pyOrQ r.relevancy (pyOrQ (some best.relevancy) 0))
    relevant := r.relevant.getD false
    best_match := best
    top_matches := (r.top_matches.getD []).map sanitize_match
    model_used := ("endo_relevancy").data
    query_number := none }

/-- The query as `predict_single` normalizes it on entry
(global_relevancy.py:971). -/
def normQ (ctx : Ctx) (q0 : Str) : Str := normalize_text ctx.nfkd q0

/-- The category `predict_single` detects for a raw query
(global_relevancy.py:972). -/
def detectedOf (ctx : Ctx) (q0 : Str) : Option Str :=
  detect_category_from_query ctx.nfkd ctx.catalog (normQ ctx q0)

/-- The generic path as a fallible step: the encoder call
(global_relevancy.py:1028) is not wrapped in `try/except`, so its failure
propagates. -/
def genericPath (ctx : Ctx) (topk : Nat) (q : Str) (dc : Option Str) : Except Str QueryRes :=
  match ctx.encode q with
  | .error e => .error e
  | .ok qEmb => .ok (genericResult ctx topk q dc qEmb)

/-- `predict_single` (global_relevancy.py:969-1087).  The two specialized
routes are inside `try/except` in the source, so a scorer failure falls
through towards the generic path. -/
def predict_single (ctx : Ctx) (q0 : Str) (topk : Nat) : Except Str QueryRes :=
  let q := normQ ctx q0
  let dc := detectedOf ctx q0
  let generic : Except Str QueryRes := genericPath ctx topk q dc
  let endoStep : Except Str QueryRes :=
    if dcTruthy dc && decide (lowerStr (dc.getD []) = ("endo").data) && ctx.hasEndo then
      match ctx.endoPredict q topk with
      | .ok r => .ok (endoRoute q r)
      | .error _ => generic
    else generic
  if dcTruthy dc && decide (lowerStr (dc.getD []) = ("analyser").data) && ctx.hasAnalyser then
    match ctx.analyserPredict q topk with
    | .ok r => .ok (analyserRoute q r)
    | .error _ => endoStep
  else endoStep

/-- The per-sub-query loop of `predict` (global_relevancy.py:1125-1130):
1-based numbering, sequential processing, and a raised exception aborts the
whole loop. -/
def processQueries (ctx : Ctx) (topk : Nat) : Nat → List Str → Except Str (List QueryRes)
  | _, [] => .ok []
  | idx, q :: rest =>
    match predict_single ctx q topk with
    | .error e => .error e
    | .ok r =>
      match processQueries ctx topk (idx + 1) rest with
      | .error e => .error e
      | .ok rs => .ok ({ r with query_number := some idx } :: rs)

/-- The summary block of the `predict` response
(global_relevancy.py:1150-1158). -/
structure Summary where
  total_queries : Nat
  relevant_matches : Nat
  irrelevant_matches : Nat
  average_relevancy : ℚ
  success_rate : ℚ
deriving DecidableEq

/-- The `predict` response (global_relevancy.py:1160-1167). -/
structure MultiQueryResponse where
  is_multi_query : Bool
  original_query : Str
  query_count : Nat
  individual_queries : List Str
  results : List QueryRes
  summary : Summary
deriving DecidableEq

/-- `predict` (global_relevancy.py:1093-1169). -/
def predict (ctx : Ctx) (q : Str) (topk : Nat) : Except Str MultiQueryResponse :=
  let iqs := split_multi_query ctx.nfkd q
  let isMulti := decide (1 < iqs.length)
  match processQueries ctx topk 1 iqs with
  | .error e => .error e
  | .ok rs =>
    let relCount := (rs.filter fun r => r.relevant).length
    let avg : ℚ :=
      if rs.isEmpty then 0 else (rs.map fun r => r.relevancy_score).sum / (rs.length : ℚ)
    let sr : ℚ := if rs.isEmpty then 0 else (relCount : ℚ) / (rs.length : ℚ)
    .ok
      { is_multi_query := isMulti
        original_query := q
        query_count := iqs.length
        individual_queries := iqs
        results := rs
        summary :=
          { total_queries := iqs.length
            relevant_matches := relCount
            irrelevant_matches := rs.length - relCount
            average_relevancy := avg
            success_rate := sr } }

/-- Whether a fallible computation raised (`.error`). -/
def isErr {α : Type} : Except Str α → Bool
  | .error _ => true
  | .ok _ => false

/-- The integer index a generic-path match always carries (`m.index` is
`some` on that path); `0` is an arbitrary default for the `none` case. -/
def matchIdx (m : CandMatch) : Int := m.index.getD 0

/-- The NFKD collaborator used for the concrete examples: real NFKD is the
identity on ASCII text, and every concrete input below is ASCII. -/
def nfkdId : Str → Str := fun s => s

/-- A stand-in `math.exp` for the concrete contexts; none of the evaluated
properties depends on its values. -/
def fexpOne : ℚ → ℚ := fun _ => 1

/-- An absent specialized scorer (never called when its flag is false). -/
def noScorer : Str → Nat → Except Str RawScorerRes :=
  fun _ _ => .error (("scorer unavailable").data)

/-- A minimal concrete context: identity NFKD, empty catalog, an encoder that
always succeeds, no specialized scorers. -/
def ctxPlain : Ctx :=
  { nfkd := nfkdId, fexp := fexpOne, catalog := [], emb := [],
    encode := fun _ => .ok [], hasAnalyser := false, analyserPredict := noScorer,
    hasEndo := false, endoPredict := noScorer }

def qAB : Str := ("a, b").data

def qSingleReq : Str := ("single requirement").data

def qPipette : Str := ("need a fixed volume pipette").data

def qSupplyAb : Str := ("supply of ab").data

def qTwo : Str := ("aaaaa, bbbbb").data

def qZ : Str := ("zzzzz").data

def encFailMsg : Str := ("encoder failure").data

/-- A context whose encoder raises on the sub-query `bbbbb` and succeeds on
everything else. -/
def ctxEncFail : Ctx :=
  { ctxPlain with encode := fun s => if s = ("bbbbb").data then .error encFailMsg else .ok [] }

def scorerBoom : Str := ("scorer exception").data

/-- A context with a registered analyser scorer that always raises. -/
def ctxAnalyserFail : Ctx :=
  { ctxPlain with hasAnalyser := true, analyserPredict := fun _ _ => .error scorerBoom }

/-- A context with a registered endo scorer that always raises. -/
def ctxEndoFail : Ctx :=
  { ctxPlain with hasEndo := true, endoPredict := fun _ _ => .error scorerBoom }

/-- A catalog item with the given stored index and every text field empty. -/
def blankItem (i : Int) : CatalogItem := ⟨some i, [], [], [], [], [], []⟩

/-- Two identical items whose stored catalog indices decrease (5 then 3):
their generic-path raw scores tie. -/
def ctxTie : Ctx :=
  { ctxPlain with catalog := [blankItem 5, blankItem 3], emb := [[1], [1]] }

/-- Two identical items whose stored catalog indices increase (3 then 5). -/
def ctxMono : Ctx :=
  { ctxPlain with catalog := [blankItem 3, blankItem 5], emb := [[1], [1]] }

/-- An ASCII input with inner whitespace, used to instantiate the
idempotence theorem. -/
def qMessy : Str := ("  supply list \n item  ").data

/-- C1: the density rule — false on the empty list; true when the first
relevancy is at least 0.80; otherwise true iff at least two entries have
relevancy at least 0.60 — together with the spec's three concrete examples. -/
theorem c1_density_rule :
    is_relevant_by_density [] = false ∧
    (∀ tm : List CandMatch,
      is_relevant_by_density tm = true ↔
        ∃ m ms, tm = m :: ms ∧
          ((0.80 : ℚ) ≤ m.relevancy ∨
            2 ≤ (tm.filter (fun x => decide ((0.60 : ℚ) ≤ x.relevancy))).length)) ∧
    is_relevant_by_density [relOnlyMatch 0.85] = true ∧
    is_relevant_by_density [relOnlyMatch 0.65, relOnlyMatch 0.62] = true ∧
    is_relevant_by_density [relOnlyMatch 0.50] = false := by
  refine ⟨rfl, fun tm => ?_, by norm_num [is_relevant_by_density, relOnlyMatch],
    by norm_num [is_relevant_by_density, relOnlyMatch],
    by norm_num [is_relevant_by_density, relOnlyMatch]⟩
  constructor
  · intro h
    match tm with
    | [] => simp [is_relevant_by_density] at h
    | m :: ms =>
      refine ⟨m, ms, rfl, ?_⟩
      by_cases h8 : (0.80 : ℚ) ≤ m.relevancy
      · exact Or.inl h8
      · simp only [is_relevant_by_density, if_neg h8] at h
        by_cases h2 : 2 ≤ ((m :: ms).filter (fun x => decide ((0.60 : ℚ) ≤ x.relevancy))).length
        · exact Or.inr h2
        · simp [h2] at h
  · rintro ⟨m, ms, rfl, h | h⟩
    · simp [is_relevant_by_density, if_pos h]
    · by_cases h8 : (0.80 : ℚ) ≤ m.relevancy
      · simp [is_relevant_by_density, if_pos h8]
      · simp [is_relevant_by_density, if_neg h8, if_pos h]

theorem mem_insertDesc {α : Type} {lt : α → α → Bool} {x y : α} {l : List α} :
    y ∈ insertDesc lt x l ↔ y = x ∨ y ∈ l := by
  induction l with
  | nil => simp [insertDesc]
  | cons h t ih =>
    by_cases hc : lt x h = true
    · simp only [insertDesc, if_pos hc, List.mem_cons, ih]
      tauto
    · simp only [insertDesc, if_neg hc, List.mem_cons]

theorem mem_sortDesc {α : Type} {lt : α → α → Bool} {y : α} {l : List α} :
    y ∈ sortDesc lt l ↔ y ∈ l := by
  induction l with
  | nil => simp [sortDesc]
  | cons x t ih => simp [sortDesc, mem_insertDesc, ih]

theorem pairwise_insertDesc {α : Type} {lt : α → α → Bool}
    (hasym : ∀ a b, lt a b = true → lt b a = false)
    (hneg : ∀ a b c, lt a b = false → lt b c = false → lt a c = false)
    {x : α} {l : List α} (hl : l.Pairwise (fun a b => lt a b = false)) :
    (insertDesc lt x l).Pairwise (fun a b => lt a b = false) := by
  induction l with
  | nil => simp [insertDesc]
  | cons h t ih =>
    rcases List.pairwise_cons.mp hl with ⟨hh, ht⟩
    by_cases hc : lt x h = true
    · simp only [insertDesc, if_pos hc]
      refine List.pairwise_cons.mpr ⟨?_, ih ht⟩
      intro y hy
      rcases mem_insertDesc.mp hy with rfl | hy2
      · exact hasym _ _ hc
      · exact hh y hy2
    · simp only [insertDesc, if_neg hc]
      refine List.pairwise_cons.mpr ⟨?_, hl⟩
      intro y hy
      rcases List.mem_cons.mp hy with rfl | hy2
      · exact Bool.not_eq_true _ ▸ hc
      · exact hneg x h y (Bool.not_eq_true _ ▸ hc) (hh y hy2)

theorem pairwise_sortDesc {α : Type} {lt : α → α → Bool}
    (hasym : ∀ a b, lt a b = true → lt b a = false)
    (hneg : ∀ a b c, lt a b = false → lt b c = false → lt a c = false)
    (l : List α) :
    (sortDesc lt l).Pairwise (fun a b => lt a b = false) := by
  induction l with
  | nil => simp [sortDesc]
  | cons x t ih => exact pairwise_insertDesc hasym hneg ih

theorem pairwise_ties_insertDesc {α : Type} {lt : α → α → Bool} {R : α → α → Prop}
    {x : α} {l : List α}
    (hl : l.Pairwise (fun a b => lt a b = false → lt b a = false → R a b))
    (hx : ∀ y ∈ l, R x y) :
    (insertDesc lt x l).Pairwise (fun a b => lt a b = false → lt b a = false → R a b) := by
  induction l with
  | nil => simp [insertDesc]
  | cons h t ih =>
    rcases List.pairwise_cons.mp hl with ⟨hh, ht⟩
    by_cases hc : lt x h = true
    · simp only [insertDesc, if_pos hc]
      refine List.pairwise_cons.mpr ⟨?_, ih ht (fun y hy => hx y (List.mem_cons_of_mem h hy))⟩
      intro y hy
      rcases mem_insertDesc.mp hy with rfl | hy2
      · intro _ hxh
        exact absurd hc (by simp [hxh])
      · exact hh y hy2
    · simp only [insertDesc, if_neg hc]
      refine List.pairwise_cons.mpr ⟨?_, hl⟩
      intro y hy _ _
      exact hx y hy

theorem pairwise_ties_sortDesc {α : Type} {lt : α → α → Bool} {R : α → α → Prop}
    {l : List α} (hl : l.Pairwise R) :
    (sortDesc lt l).Pairwise (fun a b => lt a b = false → lt b a = false → R a b) := by
  induction l with
  | nil => simp [sortDesc]
  | cons x t ih =>
    rcases List.pairwise_cons.mp hl with ⟨hx, ht⟩
    exact pairwise_ties_insertDesc (ih ht) (fun y hy => hx y (mem_sortDesc.mp hy))

theorem sortDesc_head_not_lt {α : Type} {lt : α → α → Bool}
    (hasym : ∀ a b, lt a b = true → lt b a = false)
    (hneg : ∀ a b c, lt a b = false → lt b c = false → lt a c = false)
    {l : List α} {h : α} {t : List α} (hs : sortDesc lt l = h :: t) :
    ∀ y ∈ l, lt h y = false := by
  intro y hy
  have hmem : y ∈ h :: t := hs ▸ mem_sortDesc.mpr hy
  rcases List.mem_cons.mp hmem with rfl | hy2
  · cases hyy : lt y y
    · rfl
    · exact absurd (hasym _ _ hyy) (by simp [hyy])
  · have hp := @pairwise_sortDesc _ lt hasym hneg l
    rw [hs] at hp
    exact (List.pairwise_cons.mp hp).1 y hy2

theorem rawLt_asymm : ∀ a b : CandMatch, rawLt a b = true → rawLt b a = false := by
  intro a b h
  simp only [rawLt, decide_eq_true_eq] at h
  simp only [rawLt, decide_eq_false_iff_not]
  exact not_lt.mpr (le_of_lt h)

theorem rawLt_negtrans :
    ∀ a b c : CandMatch, rawLt a b = false → rawLt b c = false → rawLt a c = false := by
  intro a b c h1 h2
  simp only [rawLt, decide_eq_false_iff_not, not_lt] at h1 h2 ⊢
  exact le_trans h2 h1

theorem hitLt_asymm : ∀ a b : Nat × Str × Str, hitLt a b = true → hitLt b a = false := by
  intro a b h
  simp only [hitLt, decide_eq_true_eq] at h
  simp only [hitLt, decide_eq_false_iff_not]
  exact lt_asymm h

theorem hitLt_negtrans :
    ∀ a b c : Nat × Str × Str, hitLt a b = false → hitLt b c = false → hitLt a c = false := by
  intro a b c h1 h2
  simp only [hitLt, decide_eq_false_iff_not, not_lt] at h1 h2 ⊢
  exact le_trans h2 h1

theorem hitLt_of_len_lt {a b : Nat × Str × Str} (h : a.1 < b.1) : hitLt a b = true := by
  simp only [hitLt, decide_eq_true_eq, hitKey]
  exact Prod.Lex.left _ _ h

/-- C2: on the generic path, the raw score is exactly the weighted sum of the
three signals plus 0.25 exactly when the detected category matches the item
category/type and plus 0.5 exactly when the nonempty product code occurs
whole-word in the lowercased query; and the stored relevancy is the sigmoid
`1/(1+exp(-raw))` of that raw score (with `exp` the `math.exp`
collaborator). -/
theorem c2_raw_score_formula :
    ∀ (ctx : Ctx) (q qLower : Str) (dc : Option Str) (sims : List ℚ) (i : Nat)
      (item : CatalogItem),
      (scoreItem ctx q qLower dc sims i item).raw_score =
        EMB_WEIGHT * (scoreItem ctx q qLower dc sims i item).emb_score +
        TOKEN_WEIGHT * (scoreItem ctx q qLower dc sims i item).token_score +
        TITLE_WEIGHT * (scoreItem ctx q qLower dc sims i item).title_overlap +
        (if dcTruthy dc &&
            (strIn (lowerStr (dc.getD [])) (lowerStr item.category) ||
              strIn (lowerStr (dc.getD [])) (lowerStr item.type)) then
          CATEGORY_BOOST else 0) +
        (if !(lowerStr item.product_code).isEmpty &&
            wholeWordIn (lowerStr item.product_code) qLower then
          (0.5 : ℚ) else 0) ∧
      (scoreItem ctx q qLower dc sims i item).relevancy =
        1 / (1 + ctx.fexp (-(scoreItem ctx q qLower dc sims i item).raw_score)) := by
  intro ctx q qLower dc sims i item
  constructor
  · simp only [scoreItem]
    split_ifs <;> ring
  · simp only [scoreItem]

/-- C6 (amended): `split_multi_query` always returns a nonempty list, and
when the cleaning steps discard every fragment it returns the single-element
list holding the stripped, boilerplate-prefix-stripped normalized input (not
the normalized original, which the boilerplate `re.sub`s may already have
shortened). -/
theorem c6_split_fallback :
    (∀ (nfkd : Str → Str) (q : Str), split_multi_query nfkd q ≠ []) ∧
    (∀ (nfkd : Str → Str) (q : Str),
      (splitParts (boiledQuery nfkd q)).filterMap cleanPart = [] →
        split_multi_query nfkd q = [pyStrip (boiledQuery nfkd q)]) := by
  constructor
  · intro nfkd q
    simp only [split_multi_query]
    by_cases h : ((splitParts (boiledQuery nfkd q)).filterMap cleanPart).isEmpty = true
    · simp [h]
    · rw [if_neg h]
      intro hcontra
      exact h (by simp [hcontra])
  · intro nfkd q h
    simp [split_multi_query, h]

/-- C6, counterexample to the claim as stated: for the input
`"supply of ab"` both fragments are discarded and the fallback is `["ab"]`,
which is not the normalized trimmed original input. -/
theorem c6_counterexample :
    split_multi_query nfkdId qSupplyAb = [("ab").data] ∧
    [("ab").data] ≠ [normalize_text nfkdId qSupplyAb] := by
  constructor
  · decide
  · decide

theorem c6_witness :
    (splitParts (boiledQuery nfkdId (("ab").data))).filterMap cleanPart = [] ∧
    split_multi_query nfkdId (("ab").data) = [pyStrip (boiledQuery nfkdId (("ab").data))] :=
  ⟨by decide, c6_split_fallback.2 nfkdId (("ab").data) (by decide)⟩

/-- C7 (amended): `sanitize_match` fills every missing float field with 0.0
and every missing string field with the empty string; a missing `index` is
kept as `None` (not 0.0).  The result type itself has all eleven keys, so no
output is ever partially filled. -/
theorem c7_sanitize_defaults :
    ∀ raw : RawMatch,
      (raw.product_code = none → (sanitize_match raw).product_code = []) ∧
      (raw.title = none → (sanitize_match raw).title = []) ∧
      (raw.type = none → (sanitize_match raw).type = []) ∧
      (raw.category = none → (sanitize_match raw).category = []) ∧
      (raw.specification = none → raw.spec = none → raw.specification_text = none →
        (sanitize_match raw).specification = []) ∧
      (raw.emb_score = none → raw.emb = none → (sanitize_match raw).emb_score = 0) ∧
      (raw.token_score = none → raw.token = none → (sanitize_match raw).token_score = 0) ∧
      (raw.title_overlap = none → raw.title_tok = none →
        (sanitize_match raw).title_overlap = 0) ∧
      (raw.raw_score = none → (sanitize_match raw).raw_score = 0) ∧
      (raw.relevancy = none → raw.relevancy_score = none → raw.relevancy_local = none →
        (sanitize_match raw).relevancy = 0) ∧
      (raw.index = none → (sanitize_match raw).index = none) := by
  intro raw
  by_cases h : raw = RawMatch.empty
  · subst h
    exact ⟨fun _ => rfl, fun _ => rfl, fun _ => rfl, fun _ => rfl,
      fun _ _ _ => rfl, fun _ _ => rfl, fun _ _ => rfl, fun _ _ => rfl,
      fun _ => rfl, fun _ _ _ => rfl, fun _ => rfl⟩
  · simp only [sanitize_match, if_neg h]
    refine ⟨?_, ?_, ?_, ?_, ?_, ?_, ?_, ?_, ?_, ?_, ?_⟩ <;>
      · intros
        simp_all [pyOrS, pyOrQ]

/-- C7, counterexample to the claim as stated: on the empty dict the `index`
field — a numeric field — is `None`, not 0.0. -/
theorem c7_counterexample :
    (sanitize_match RawMatch.empty).index = none ∧ (none : Option Int) ≠ some 0 := by
  constructor
  · rfl
  · decide

theorem c7_witness :
    (sanitize_match RawMatch.empty).product_code = [] ∧
    (sanitize_match RawMatch.empty).specification = [] ∧
    (sanitize_match RawMatch.empty).emb_score = 0 ∧
    (sanitize_match RawMatch.empty).relevancy = 0 ∧
    (sanitize_match RawMatch.empty).index = none := by
  obtain ⟨h1, _, _, _, h5, h6, _, _, _, h10, h11⟩ := c7_sanitize_defaults RawMatch.empty
  exact ⟨h1 rfl, h5 rfl rfl rfl, h6 rfl rfl, h10 rfl rfl rfl, h11 rfl⟩

/-- C3 (amended): in every successful response `query_count` is the number of
sub-queries the segmenter produced and `is_multi_query` holds exactly when
there is more than one; concretely both `"a, b"` (whose comma fragments are
shorter than the 3-character minimum, so segmentation falls back to the whole
input) and `"single requirement"` give `query_count = 1` and
`is_multi_query = false`. -/
theorem c3_multi_query_counts :
    (∀ (ctx : Ctx) (q : Str) (topk : Nat),
      (predict ctx q topk).toOption.map (fun r => r.query_count) =
        (predict ctx q topk).toOption.map (fun _ => (split_multi_query ctx.nfkd q).length) ∧
      (predict ctx q topk).toOption.map (fun r => r.is_multi_query) =
        (predict ctx q topk).toOption.map
          (fun _ => decide (1 < (split_multi_query ctx.nfkd q).length))) ∧
    (predict ctxPlain qAB 5).toOption.map (fun r => (r.query_count, r.is_multi_query)) =
      some (1, false) ∧
    (predict ctxPlain qSingleReq 5).toOption.map (fun r => (r.query_count, r.is_multi_query)) =
      some (1, false) := by
  refine ⟨fun ctx q topk => ?_, by decide, by decide⟩
  simp only [predict]
  cases hp : processQueries ctx topk 1 (split_multi_query ctx.nfkd q) with
  | error e => simp [Except.toOption]
  | ok rs => simp [Except.toOption]

/-- C3, counterexample to the claim as stated: `predict("a, b")` yields
`query_count = 1` and `is_multi_query = false`, not 2 and true. -/
theorem c3_counterexample :
    (predict ctxPlain qAB 5).toOption.map (fun r => (r.query_count, r.is_multi_query)) =
      some (1, false) ∧
    (some ((1 : Nat), false)) ≠ some ((2 : Nat), true) := by
  exact ⟨by decide, by decide⟩

theorem genericPath_err {ctx : Ctx} {topk : Nat} {q : Str} {dc : Option Str} {e : Str}
    (h : genericPath ctx topk q dc = .error e) : ctx.encode q = .error e := by
  simp only [genericPath] at h
  cases henc : ctx.encode q with
  | error e2 =>
    rw [henc] at h
    injection h with h2
    rw [h2]
  | ok v =>
    rw [henc] at h
    exact Except.noConfusion h

theorem processQueries_err (ctx : Ctx) (topk : Nat) :
    ∀ (idx : Nat) (l : List Str),
      isErr (processQueries ctx topk idx l) =
        l.any (fun sq => isErr (predict_single ctx sq topk)) := by
  intro idx l
  induction l generalizing idx with
  | nil => rfl
  | cons q rest ih =>
    simp only [processQueries, List.any_cons]
    cases hps : predict_single ctx q topk with
    | error e => simp [isErr]
    | ok r =>
      simp only [isErr, Bool.false_or]
      have h2 := ih (idx + 1)
      cases hrec : processQueries ctx topk (idx + 1) rest with
      | error e2 =>
        rw [hrec] at h2
        simpa [isErr] using h2
      | ok rs =>
        rw [hrec] at h2
        simpa [isErr] using h2

/-- C4 (amended): the engine has no per-sub-query isolation for encoder
failures — `predict` raises exactly when some sub-query's `predict_single`
raises (the loop aborts at the first failure, so no response is returned for
any sibling), and the only failure `predict_single` can raise is the
un-caught encoder failure of its generic path. -/
theorem c4_encoder_failure_propagates :
    (∀ (ctx : Ctx) (q : Str) (topk : Nat),
      isErr (predict ctx q topk) =
        (split_multi_query ctx.nfkd q).any (fun sq => isErr (predict_single ctx sq topk))) ∧
    (∀ (ctx : Ctx) (sq : Str) (topk : Nat) (e : Str),
      predict_single ctx sq topk = .error e → ctx.encode (normQ ctx sq) = .error e) := by
  constructor
  · intro ctx q topk
    have h := processQueries_err ctx topk 1 (split_multi_query ctx.nfkd q)
    simp only [predict]
    cases hp : processQueries ctx topk 1 (split_multi_query ctx.nfkd q) with
    | error e =>
      rw [hp] at h
      simpa [isErr] using h
    | ok rs =>
      rw [hp] at h
      simpa [isErr] using h
  · intro ctx sq topk e h
    simp only [predict_single] at h
    split at h
    · split at h
      · exact Except.noConfusion h
      · split at h
        · split at h
          · exact Except.noConfusion h
          · exact genericPath_err h
        · exact genericPath_err h
    · split at h
      · split at h
        · exact Except.noConfusion h
        · exact genericPath_err h
      · exact genericPath_err h

/-- C4, counterexample to the claim as stated: with an encoder that fails on
the sub-query `bbbbb` only, the first sub-query of `"aaaaa, bbbbb"` is fine,
yet `predict` surfaces no response at all and raises the encoder failure —
the failure is not scoped to the affected sub-query. -/
theorem c4_counterexample :
    isErr (predict_single ctxEncFail (("aaaaa").data) 5) = false ∧
    isErr (predict_single ctxEncFail (("bbbbb").data) 5) = true ∧
    predict ctxEncFail qTwo 5 = .error encFailMsg := by
  refine ⟨by decide, by decide, rfl⟩

theorem c4_witness :
    ctxEncFail.encode (normQ ctxEncFail (("bbbbb").data)) = .error encFailMsg :=
  c4_encoder_failure_propagates.2 ctxEncFail (("bbbbb").data) 5 encFailMsg (by rfl)

/-- C5 (amended): the generic path's `top_matches` is sorted descending by
`raw_score`, and among entries with equal `raw_score` the catalog scan order
is preserved (Python's sort is stable); consequently ties appear in ascending
order of the stored catalog `index` exactly when those stored indices
increase along the catalog scan — which the loader does not enforce. -/
theorem c5_ranking :
    (∀ (ctx : Ctx) (topk : Nat) (q : Str) (dc : Option Str) (qEmb : List ℚ),
      (genericResult ctx topk q dc qEmb).top_matches.Pairwise
        (fun a b => b.raw_score ≤ a.raw_score)) ∧
    (∀ (ctx : Ctx) (topk : Nat) (q : Str) (dc : Option Str) (qEmb : List ℚ),
      (genMatches ctx q dc qEmb).Pairwise (fun a b => matchIdx a < matchIdx b) →
        (genericResult ctx topk q dc qEmb).top_matches.Pairwise
          (fun a b => a.raw_score = b.raw_score → matchIdx a < matchIdx b)) := by
  constructor
  · intro ctx topk q dc qEmb
    have hs := pairwise_sortDesc rawLt_asymm rawLt_negtrans (genMatches ctx q dc qEmb)
    have htake := hs.sublist (List.take_sublist topk _)
    have hconv : (sortDesc rawLt (genMatches ctx q dc qEmb)).take topk
        |>.Pairwise (fun a b => b.raw_score ≤ a.raw_score) := by
      refine htake.imp ?_
      intro a b hab
      simp only [rawLt, decide_eq_false_iff_not, not_lt] at hab
      exact hab
    exact hconv
  · intro ctx topk q dc qEmb hmono
    have hs := @pairwise_ties_sortDesc _ rawLt _ _ hmono
    have htake := hs.sublist (List.take_sublist topk _)
    refine htake.imp ?_
    intro a b hab heq
    refine hab ?_ ?_
    · simp [rawLt, heq]
    · simp [rawLt, heq]

/-- C5, counterexample to the claim as stated: two identical catalog items
stored with indices 5 then 3 tie on `raw_score`, and the tie is emitted in
scan order — index 5 before index 3, not ascending. -/
theorem c5_counterexample :
    ((genericResult ctxTie 5 qZ none [1]).top_matches.map
        fun m => (m.raw_score, matchIdx m)) = [(1, 5), (1, 3)] ∧
    ¬ ((5 : Int) < 3) := by
  exact ⟨of_decide_eq_true (by with_unfolding_all rfl), by decide⟩

theorem c5_witness :
    (genMatches ctxMono qZ none [1]).Pairwise (fun a b => matchIdx a < matchIdx b) ∧
    (genericResult ctxMono 5 qZ none [1]).top_matches.Pairwise
      (fun a b => a.raw_score = b.raw_score → matchIdx a < matchIdx b) :=
  ⟨by decide, c5_ranking.2 ctxMono 5 qZ none [1] (by decide)⟩

/-- C8: when the detected category routes to a registered specialized scorer
(analyser or endo) and that scorer raises, `predict_single` falls through and
returns exactly the generic path's result; the scorer failure itself never
reaches the caller. -/
theorem c8_scorer_failure_falls_back :
    (∀ (ctx : Ctx) (q0 : Str) (topk : Nat) (e : Str),
      dcTruthy (detectedOf ctx q0) = true →
      lowerStr ((detectedOf ctx q0).getD []) = ("analyser").data →
      ctx.hasAnalyser = true →
      ctx.analyserPredict (normQ ctx q0) topk = .error e →
      predict_single ctx q0 topk =
        genericPath ctx topk (normQ ctx q0) (detectedOf ctx q0)) ∧
    (∀ (ctx : Ctx) (q0 : Str) (topk : Nat) (e : Str),
      dcTruthy (detectedOf ctx q0) = true →
      lowerStr ((detectedOf ctx q0).getD []) = ("endo").data →
      ctx.hasEndo = true →
      ctx.endoPredict (normQ ctx q0) topk = .error e →
      predict_single ctx q0 topk =
        genericPath ctx topk (normQ ctx q0) (detectedOf ctx q0)) := by
  constructor
  · intro ctx q0 topk e h1 h2 h3 h4
    have hendo : lowerStr ((detectedOf ctx q0).getD []) ≠ ("endo").data := by
      rw [h2]
      decide
    simp only [predict_single, h1, h2, h3, h4]
    simp [hendo]
  · intro ctx q0 topk e h1 h2 h3 h4
    have hana : lowerStr ((detectedOf ctx q0).getD []) ≠ ("analyser").data := by
      rw [h2]
      decide
    simp only [predict_single, h1, h2, h3, h4]
    simp [hana]

theorem c8_witness :
    predict_single ctxAnalyserFail (("analyser").data) 5 =
      genericPath ctxAnalyserFail 5 (normQ ctxAnalyserFail (("analyser").data))
        (detectedOf ctxAnalyserFail (("analyser").data)) ∧
    predict_single ctxEndoFail (("endo").data) 5 =
      genericPath ctxEndoFail 5 (normQ ctxEndoFail (("endo").data))
        (detectedOf ctxEndoFail (("endo").data)) :=
  ⟨c8_scorer_failure_falls_back.1 ctxAnalyserFail (("analyser").data) 5 scorerBoom
      (by decide) (by decide) rfl rfl,
    c8_scorer_failure_falls_back.2 ctxEndoFail (("endo").data) 5 scorerBoom
      (by decide) (by decide) rfl rfl⟩

/-- C9: whenever some keyword of the static rule table occurs as a substring
of the lowercased normalized query, `detect_category_from_query` returns the
category of a matching keyword of maximal length; in particular
`detect("need a fixed volume pipette") = "Pipettes"`. -/
theorem c9_longest_keyword :
    (∀ (nfkd : Str → Str) (catalog : List CatalogItem) (q : Str),
      (∃ kw cat, (kw, cat) ∈ CATEGORY_KEYWORDS ∧
          kw <:+: lowerStr (normalize_text nfkd q)) →
      ∃ kw cat, (kw, cat) ∈ CATEGORY_KEYWORDS ∧
        kw <:+: lowerStr (normalize_text nfkd q) ∧
        (∀ kw2 cat2, (kw2, cat2) ∈ CATEGORY_KEYWORDS →
          kw2 <:+: lowerStr (normalize_text nfkd q) → kw2.length ≤ kw.length) ∧
        detect_category_from_query nfkd catalog q = some cat) ∧
    detect_category_from_query nfkdId [] qPipette = some (("Pipettes").data) := by
  constructor
  · intro nfkd catalog q h
    obtain ⟨kw0, cat0, hmem0, hinf0⟩ := h
    have hhit0 : (kw0.length, kw0, cat0) ∈ categoryHits nfkd q := by
      simp only [categoryHits, List.mem_filterMap]
      exact ⟨(kw0, cat0), hmem0, by rw [if_pos hinf0]⟩
    have hne : ¬ (categoryHits nfkd q).isEmpty = true := by
      intro hE
      rw [List.isEmpty_iff] at hE
      simp [hE] at hhit0
    cases hs : sortDesc hitLt (categoryHits nfkd q) with
    | nil =>
      have hmm : (kw0.length, kw0, cat0) ∈ sortDesc hitLt (categoryHits nfkd q) :=
        mem_sortDesc.mpr hhit0
      rw [hs] at hmm
      simp at hmm
    | cons h0 t0 =>
      have hh0mem : h0 ∈ categoryHits nfkd q := by
        have : h0 ∈ sortDesc hitLt (categoryHits nfkd q) := by
          rw [hs]
          exact List.mem_cons_self _ _
        exact mem_sortDesc.mp this
      have hh0 := hh0mem
      simp only [categoryHits, List.mem_filterMap] at hh0
      obtain ⟨⟨kw, cat⟩, hmem, hif⟩ := hh0
      by_cases hinf : kw <:+: lowerStr (normalize_text nfkd q)
      · rw [if_pos hinf] at hif
        have hh0eq : h0 = (kw.length, kw, cat) := (Option.some.inj hif).symm
        refine ⟨kw, cat, hmem, hinf, ?_, ?_⟩
        · intro kw2 cat2 hmem2 hinf2
          have hy : (kw2.length, kw2, cat2) ∈ categoryHits nfkd q := by
            simp only [categoryHits, List.mem_filterMap]
            exact ⟨(kw2, cat2), hmem2, by rw [if_pos hinf2]⟩
          have hnl := sortDesc_head_not_lt hitLt_asymm hitLt_negtrans hs _ hy
          by_contra hgt
          push_neg at hgt
          have : hitLt h0 (kw2.length, kw2, cat2) = true := by
            rw [hh0eq]
            exact hitLt_of_len_lt hgt
          rw [hnl] at this
          exact Bool.false_ne_true this
        · simp only [detect_category_from_query]
          rw [if_neg hne, hs, hh0eq]
      · rw [if_neg hinf] at hif
        exact Option.noConfusion hif
  · decide

theorem map_self_of_mem {α : Type} {f : α → α} {l : List α}
    (h : ∀ c ∈ l, f c = c) : l.map f = l := by
  conv_rhs => rw [← List.map_id l]
  exact List.map_congr_left h

theorem replChars_no_targets (s : Str) :
    ∀ c ∈ replChars s, zwChar c = false ∧ c ≠ '\n' ∧ c ≠ '\r' := by
  intro c hc
  simp only [replChars, List.mem_map] at hc
  obtain ⟨b, ⟨a, ⟨d, _, rfl⟩, rfl⟩, rfl⟩ := hc
  by_cases h1 : zwChar d = true
  · rw [if_pos h1]
    decide
  · rw [if_neg h1]
    by_cases h2 : (d == '\n') = true
    · rw [if_pos h2]
      decide
    · rw [if_neg h2]
      by_cases h3 : (d == '\r') = true
      · rw [if_pos h3]
        decide
      · rw [if_neg h3]
        refine ⟨by simpa using h1, ?_, ?_⟩
        · simpa using h2
        · simpa using h3

theorem replChars_id (s : Str)
    (h : ∀ c ∈ s, zwChar c = false ∧ c ≠ '\n' ∧ c ≠ '\r') : replChars s = s := by
  simp only [replChars]
  have h1 : s.map (fun c => if zwChar c then ' ' else c) = s :=
    map_self_of_mem (fun c hc => by simp [(h c hc).1])
  rw [h1]
  have h2 : s.map (fun c => if c == '\n' then ' ' else c) = s :=
    map_self_of_mem (fun c hc => by simp [(h c hc).2.1])
  rw [h2]
  exact map_self_of_mem (fun c hc => by simp [(h c hc).2.2])

theorem mem_pyStrip {c : Char} {s : Str} (h : c ∈ pyStrip s) : c ∈ s := by
  simp only [pyStrip] at h
  have hpre := List.rdropWhile_prefix pyWS (s.dropWhile pyWS)
  have h1 : c ∈ s.dropWhile pyWS := hpre.sublist.mem h
  exact (List.dropWhile_suffix pyWS).sublist.mem h1

theorem prefix_dropWhile_eq_self (v u : List Char) (p : Char → Bool)
    (hp : List.IsPrefix v u) (h : u.dropWhile p = u) : v.dropWhile p = v := by
  cases v with
  | nil => rfl
  | cons c t =>
    obtain ⟨r, rfl⟩ := hp
    rw [List.cons_append, List.dropWhile_cons] at h
    by_cases hc : p c = true
    · exfalso
      simp only [hc, if_true] at h
      have hlen := congrArg List.length h
      simp only [List.length_cons] at hlen
      have hle : ((t ++ r).dropWhile p).length ≤ (t ++ r).length :=
        (List.dropWhile_suffix p).length_le
      omega
    · rw [List.dropWhile_cons, if_neg (by simp [hc])]

theorem pyStrip_idem (s : Str) : pyStrip (pyStrip s) = pyStrip s := by
  simp only [pyStrip]
  have h2 : ((s.dropWhile pyWS).rdropWhile pyWS).dropWhile pyWS =
      (s.dropWhile pyWS).rdropWhile pyWS :=
    prefix_dropWhile_eq_self _ _ pyWS ( List.rdropWhile_prefix _ _)
      (List.dropWhile_idempotent _ _)
  rw [h2, List.rdropWhile_idempotent]

/-- C10: for every NFKD collaborator that is idempotent and fixes the result
of the replace-and-strip postprocessing of an NFKD-normal string (both hold
of real Unicode NFKD), `normalize_text` is idempotent; and
`norm_token_list`, being a pure function, is stable across repeated calls. -/
theorem c10_normalize_idempotent :
    ∀ (nfkd : Str → Str),
      (∀ s, nfkd (nfkd s) = nfkd s) →
      (∀ s, nfkd s = s →
        nfkd (normalize_text (fun u => u) s) = normalize_text (fun u => u) s) →
      ∀ s,
        normalize_text nfkd (normalize_text nfkd s) = normalize_text nfkd s ∧
        norm_token_list nfkd s = norm_token_list nfkd s := by
  intro nfkd hIdem hPres s
  refine ⟨?_, rfl⟩
  have hT : nfkd (normalize_text nfkd s) = normalize_text nfkd s :=
    hPres (nfkd s) (hIdem s)
  have hNo : ∀ c ∈ normalize_text nfkd s, zwChar c = false ∧ c ≠ '\n' ∧ c ≠ '\r' :=
    fun c hc => replChars_no_targets _ c (mem_pyStrip hc)
  show pyStrip (replChars (nfkd (normalize_text nfkd s))) = normalize_text nfkd s
  rw [hT, replChars_id _ hNo]
  exact pyStrip_idem _

theorem c10_witness :
    normalize_text nfkdId (normalize_text nfkdId qMessy) = normalize_text nfkdId qMessy :=
  (c10_normalize_idempotent nfkdId (fun _ => rfl) (fun _ _ => rfl) qMessy).1

theorem c9_witness :
    ∃ kw cat, (kw, cat) ∈ CATEGORY_KEYWORDS ∧
      kw <:+: lowerStr (normalize_text nfkdId qPipette) ∧
      (∀ kw2 cat2, (kw2, cat2) ∈ CATEGORY_KEYWORDS →
        kw2 <:+: lowerStr (normalize_text nfkdId qPipette) → kw2.length ≤ kw.length) ∧
      detect_category_from_query nfkdId [] qPipette = some cat :=
  c9_longest_keyword.1 nfkdId [] qPipette
    ⟨("pipette").data, ("Pipettes").data, by decide, by decide⟩
